import Mathlib

/-!
Shallow embedding of the storage path of the rtstore/db3 storage node.

The embedding follows the source files:
 * src/src/storage/src/db_store_v2.rs   (DBStoreV2: databases, collections,
   document ownership, per-database document-id allocation)
 * src/src/node/src/storage_node_light_impl.rs  (send_mutation dispatch,
   block producer tick)
 * src/src/node/src/mutation_utils.rs   (typed-envelope verification)

Rust's in-place RocksDB effects become explicit state passing: every
mutating operation returns `Except DB3Error α × State`, so an operation
can both signal an error and have already changed the store — exactly as
in the source, where an early `?` return does not roll back prior writes.
Column families become association lists with `put` = overwrite and
`delete` = key removal, matching RocksDB point-write semantics.

Collaborators whose code is not under src/ (the state store's nonce
table, the mutation store, the doc store, and the crypto/id helpers)
are modelled from the spec; each such definition carries a doc comment
saying so.
-/

namespace RtStore

/-- Byte strings: account addresses, payloads, protobuf-encoded ids. -/
abbrev Bytes := List Nat

/-- A 20-byte account address, carried raw. -/
abbrev Addr := Bytes

/-- Association-list point read, modelling `get_cf` on a column family. -/
def alookup {K V : Type} [DecidableEq K] : List (K × V) → K → Option V
  | [], _ => none
  | (k, v) :: rest, key => if k = key then some v else alookup rest key

/-- Association-list overwrite, modelling `put_cf` (upsert). -/
def aput {K V : Type} [DecidableEq K] : List (K × V) → K → V → List (K × V)
  | [], key, v => [(key, v)]
  | (k, w) :: rest, key, v =>
    if k = key then (key, v) :: rest else (k, w) :: aput rest key v

/-- Association-list removal, modelling `delete_cf`. -/
def adel {K V : Type} [DecidableEq K] : List (K × V) → K → List (K × V)
  | [], _ => []
  | (k, w) :: rest, key =>
    if k = key then adel rest key else (k, w) :: adel rest key

theorem alookup_aput_self {K V : Type} [DecidableEq K]
    (l : List (K × V)) (k : K) (v : V) : alookup (aput l k v) k = some v := by
  induction l with
  | nil => simp [aput, alookup]
  | cons hd tl ih =>
    obtain ⟨k0, v0⟩ := hd
    by_cases h : k0 = k <;> simp [aput, alookup, h, ih]

theorem alookup_aput_ne {K V : Type} [DecidableEq K]
    (l : List (K × V)) (k k1 : K) (v : V) (h : k1 ≠ k) :
    alookup (aput l k v) k1 = alookup l k1 := by
  induction l with
  | nil => simp [aput, alookup, h.symm]
  | cons hd tl ih =>
    obtain ⟨k0, v0⟩ := hd
    by_cases h0 : k0 = k
    · subst h0
      simp [aput, alookup, h.symm]
    · simp [aput, alookup, h0, ih]

theorem alookup_adel_self {K V : Type} [DecidableEq K]
    (l : List (K × V)) (k : K) : alookup (adel l k) k = none := by
  induction l with
  | nil => simp [adel, alookup]
  | cons hd tl ih =>
    obtain ⟨k0, v0⟩ := hd
    by_cases h : k0 = k <;> simp [adel, alookup, h, ih]

theorem alookup_adel_ne {K V : Type} [DecidableEq K]
    (l : List (K × V)) (k k1 : K) (h : k1 ≠ k) :
    alookup (adel l k) k1 = alookup l k1 := by
  induction l with
  | nil => simp [adel, alookup]
  | cons hd tl ih =>
    obtain ⟨k0, v0⟩ := hd
    by_cases h0 : k0 = k
    · subst h0
      simp [adel, alookup, h.symm, ih]
    · simp [adel, alookup, h0, ih]

/-- Big-endian fixed-width byte encoding of an integer (`to_be_bytes`). -/
def be_bytes (width : Nat) (v : Nat) : Bytes :=
  (List.range width).reverse.map (fun i => v / 256 ^ i % 256)

/-- Error kinds of the `db3_error::DB3Error` enum, restricted to the
variants constructed by the code under src/. -/
inductive DB3Error where
  | OpenStoreError (path msg : String)
  | ReadStoreError (msg : String)
  | WriteStoreError (msg : String)
  | CollectionNotFound (name dbAddr : String)
  | OwnerVerifyFailed (msg : String)
  | ApplyMutationError (msg : String)
  deriving Repr, DecidableEq

/-- Transport-level gRPC status, as produced by `tonic::Status`
constructors used in storage_node_light_impl.rs. -/
inductive Status where
  | invalidArgument (msg : String)
  | internal (msg : String)
  | permissionDenied (msg : String)
  deriving Repr, DecidableEq

/-- Index field descriptor of a collection (proto `Index`; the proto
definition is generated code outside src/, the spec describes it as a
name plus an order direction). -/
structure IndexField where
  name : String
  order : Nat
  deriving Repr, DecidableEq

/-- Proto `CollectionMutation`. -/
structure CollectionMutation where
  collection_name : String
  index_fields : List IndexField
  deriving Repr, DecidableEq

/-- Proto `Collection` as stored in the collection column family. -/
structure Collection where
  id : Bytes
  name : String
  index_fields : List IndexField
  sender : Bytes
  deriving Repr, DecidableEq

/-- Proto `DocumentDatabaseMutation`. -/
structure DocumentDatabaseMutation where
  db_desc : String
  deriving Repr, DecidableEq

/-- Proto `EventDatabaseMutation`. -/
structure EventDatabaseMutation where
  desc : String
  contract_address : String
  ttl : Nat
  events_json_abi : String
  evm_node_url : String
  tables : List CollectionMutation
  deriving Repr, DecidableEq

/-- Proto `DocumentDatabase` record. -/
structure DocumentDatabase where
  address : Bytes
  sender : Bytes
  desc : String
  deriving Repr, DecidableEq

/-- Proto `EventDatabase` record. -/
structure EventDatabase where
  address : Bytes
  sender : Bytes
  desc : String
  contract_address : String
  ttl : Nat
  events_json_abi : String
  evm_node_url : String
  deriving Repr, DecidableEq

/-- Proto `DatabaseMessage` (oneof over the two database variants). -/
inductive DatabaseMessage where
  | DocDb (d : DocumentDatabase)
  | EventDb (e : EventDatabase)
  deriving Repr, DecidableEq

/-- Proto `DocumentMutation`: raw BSON document payloads plus target ids. -/
structure DocumentMutation where
  collection_name : String
  documents : List Bytes
  ids : List Int
  deriving Repr, DecidableEq

/-- Proto `mutation::body_wrapper::Body` (oneof). -/
inductive Body where
  | CollectionMutation (c : CollectionMutation)
  | DocDatabaseMutation (d : DocumentDatabaseMutation)
  | EventDatabaseMutation (e : EventDatabaseMutation)
  | DocumentMutation (d : DocumentMutation)
  deriving Repr, DecidableEq

/-- Proto `BodyWrapper`: target database address plus optional body. -/
structure BodyWrapper where
  db_address : Bytes
  body : Option Body
  deriving Repr, DecidableEq

/-- Proto `Mutation`: an action code with a list of bodies. -/
structure Mutation where
  action : Int
  bodies : List BodyWrapper
  deriving Repr, DecidableEq

/-- Proto `MutationAction` enum. -/
inductive MutationAction where
  | CreateDocumentDb
  | AddCollection
  | AddDocument
  | DeleteDocument
  | UpdateDocument
  | CreateEventDb
  deriving Repr, DecidableEq

/-- Action codes of the generated proto (outside src/); the numbering is
the one documented in the spec: CreateDocumentDb=0, AddCollection=1,
AddDocument=2, DeleteDocument=3, UpdateDocument=4, CreateEventDb=5. -/
def MutationAction.from_i32 (v : Int) : Option MutationAction :=
  if v = 0 then some .CreateDocumentDb
  else if v = 1 then some .AddCollection
  else if v = 2 then some .AddDocument
  else if v = 3 then some .DeleteDocument
  else if v = 4 then some .UpdateDocument
  else if v = 5 then some .CreateEventDb
  else none

/-- Proto `ExtraItem`: an auxiliary key/value pair in a mutation response. -/
structure ExtraItem where
  key : String
  value : String
  deriving Repr, DecidableEq

/-- Proto `SendMutationResponse`. -/
structure SendMutationResponse where
  id : String
  code : Nat
  msg : String
  items : List ExtraItem
  block : Nat
  order : Nat
  deriving Repr, DecidableEq

/-- Modelled from the spec: `DB3Address::to_hex` / `DbId::to_hex`
(db3_crypto, not under src/) — an injective textual rendering of the
raw address bytes. -/
def to_hex (a : Bytes) : String :=
  "0x" ++ String.intercalate "." (a.map toString)

/-- Modelled from the spec: `DbId::from((sender, nonce, network_id))`
(db3_crypto, not under src/) computes the deterministic database
address `H(owner ∥ nonce ∥ network)`; modelled as an injective
deterministic encoding of the triple. -/
def db_id_from (owner : Addr) (nonce : Nat) (network : Nat) : Addr :=
  owner ++ be_bytes 8 nonce ++ be_bytes 8 network

/-- Modelled from the spec: `OpEntryId::create(block, order, idx)`
(db3_crypto id_v2, not under src/) — the creation-time identifier
`(block, order, idx)` of a collection, big-endian encoded. -/
def op_entry_id (block : Nat) (order : Nat) (idx : Nat) : Bytes :=
  be_bytes 8 block ++ be_bytes 4 order ++ be_bytes 2 idx

/-- Modelled from the spec: the doc store (C5, src/storage doc_store.rs
not under src/) is an external collaborator keeping document content by
per-database id; its contract is create database/collection, add by id,
patch (replace) by id, delete by id. -/
structure DocStoreState where
  dbs : List Addr
  collections : List (Addr × String)
  docs : List ((Addr × String × Int) × String)
  deriving Repr, DecidableEq

namespace DocStoreState

/-- Modelled from the spec: `DocStore::create_database(db_addr)`. -/
def create_database (s : DocStoreState) (db_addr : Addr) : DocStoreState :=
  { s with dbs := db_addr :: s.dbs }

/-- Modelled from the spec: `DocStore::create_collection(db_addr, mut)`. -/
def create_collection (s : DocStoreState) (db_addr : Addr)
    (collection : CollectionMutation) : DocStoreState :=
  { s with collections := (db_addr, collection.collection_name) :: s.collections }

/-- Modelled from the spec: `DocStore::add_str_docs` stores documents
under the caller-supplied ids. -/
def add_str_docs (s : DocStoreState) (db_addr : Addr) (col_name : String)
    (docs : List String) (doc_ids : List Int) : DocStoreState :=
  { s with
    docs := (List.zip doc_ids docs).foldl
      (fun acc p => aput acc (db_addr, col_name, p.1) p.2) s.docs }

/-- Modelled from the spec: `DocStore::patch_docs` replaces documents
by id. -/
def patch_docs (s : DocStoreState) (db_addr : Addr) (col_name : String)
    (docs : List String) (doc_ids : List Int) : DocStoreState :=
  { s with
    docs := (List.zip doc_ids docs).foldl
      (fun acc p => aput acc (db_addr, col_name, p.1) p.2) s.docs }

/-- Modelled from the spec: `DocStore::delete_docs` removes documents
by id. -/
def delete_docs (s : DocStoreState) (db_addr : Addr) (col_name : String)
    (doc_ids : List Int) : DocStoreState :=
  { s with
    docs := doc_ids.foldl (fun acc i => adel acc (db_addr, col_name, i)) s.docs }

end DocStoreState

/-- State of `DBStoreV2` (db_store_v2.rs): the six column families that
the claims touch, the in-memory per-database doc-id counter map
(`DBState.db_doc_order`, keyed in the source by the database address in
hex — hex encoding is injective, so the model keys by the address), and
the `enable_doc_store` configuration flag together with the doc-store
collaborator state. -/
structure DBStoreV2State where
  enable_doc_store : Bool
  databases : List (Addr × DatabaseMessage)
  collections : List ((Addr × String) × Collection)
  doc_owners : List ((Addr × Int) × Addr)
  db_owners : List ((Addr × Nat × Nat) × Addr)
  db_doc_order : List (Addr × Int)
  doc_store : DocStoreState
  deriving Repr, DecidableEq

namespace DBStoreV2

/-- `DBStoreV2::new`: opens the column families from disk (their
contents are the arguments) and starts with a fresh, empty in-memory
`DBState` — the doc-id counter map is `BTreeMap::new()`; no column
family is scanned. The doc store is an external collaborator with its
own persistence, so its state is likewise an argument. -/
def new (enable_doc_store : Bool)
    (databases : List (Addr × DatabaseMessage))
    (collections : List ((Addr × String) × Collection))
    (doc_owners : List ((Addr × Int) × Addr))
    (db_owners : List ((Addr × Nat × Nat) × Addr))
    (doc_store : DocStoreState) : DBStoreV2State :=
  { enable_doc_store := enable_doc_store
    databases := databases
    collections := collections
    doc_owners := doc_owners
    db_owners := db_owners
    db_doc_order := []
    doc_store := doc_store }

/-- Restart of the process on the same db path: `DBStoreV2::new` reopens
the persistent column families with their contents, while the in-memory
`DBState` is rebuilt from scratch (`BTreeMap::new()`); nothing restores
the per-database counters from the doc-owner family. -/
def restart (s : DBStoreV2State) : DBStoreV2State :=
  new s.enable_doc_store s.databases s.collections s.doc_owners s.db_owners s.doc_store

/-- `DBStoreV2::increase_db_doc_order`: bump the per-database counter
under the process-wide mutex; a missing entry is created at 1. The
source's only error path is mutex poisoning, which the sequential model
cannot exhibit, so the model is total. -/
def increase_db_doc_order (s : DBStoreV2State) (db_addr : Addr) :
    Int × DBStoreV2State :=
  match alookup s.db_doc_order db_addr with
  | some order =>
    (order + 1, { s with db_doc_order := aput s.db_doc_order db_addr (order + 1) })
  | none =>
    (1, { s with db_doc_order := aput s.db_doc_order db_addr 1 })

/-- `DBStoreV2::get_database`: point read of the database family. -/
def get_database (s : DBStoreV2State) (db_addr : Addr) : Option DatabaseMessage :=
  alookup s.databases db_addr

/-- `DBStoreV2::get_collection_of_database`: prefix scan of the
collection family with the database address as prefix (collection keys
are `db_address ∥ collection_name`). -/
def get_collection_of_database (s : DBStoreV2State) (db_addr : Addr) :
    List Collection :=
  (s.collections.filter (fun kv => kv.1.1 = db_addr)).map (fun kv => kv.2)

/-- `DBStoreV2::is_db_collection_exist`: point read of the collection
family at key `db_address ∥ collection_name`. -/
def is_db_collection_exist (s : DBStoreV2State) (db_addr : Addr)
    (col_name : String) : Bool :=
  (alookup s.collections (db_addr, col_name)).isSome

/-- `DBStoreV2::create_collection`: requires the database to exist,
rejects an existing collection name (the source checks twice: once via
`is_db_collection_exist` and once via a direct `get_cf`), then writes
the collection record with creation id `(block, order, idx)` and, when
the doc store is enabled, forwards the creation to the doc store. -/
def create_collection (s : DBStoreV2State) (sender : Addr) (db_addr : Addr)
    (collection : CollectionMutation) (block : Nat) (order : Nat) (idx : Nat) :
    Except DB3Error Unit × DBStoreV2State :=
  match get_database s db_addr with
  | none => (.error (.ReadStoreError "fail to find database"), s)
  | some _ =>
    if is_db_collection_exist s db_addr collection.collection_name then
      (.error (.ReadStoreError "collection with name exist"), s)
    else
      match alookup s.collections (db_addr, collection.collection_name) with
      | some _ => (.error (.ReadStoreError "collection with name exist"), s)
      | none =>
        let col : Collection :=
          { id := op_entry_id block order idx
            name := collection.collection_name
            index_fields := collection.index_fields
            sender := sender }
        let s1 := { s with
          collections := aput s.collections (db_addr, collection.collection_name) col }
        if s1.enable_doc_store then
          (.ok (), { s1 with doc_store := s1.doc_store.create_collection db_addr collection })
        else
          (.ok (), s1)

/-- `DBStoreV2::verify_docs_ownership`: for each id in order, the
doc-owner family must hold a row at `db_address ∥ doc_id_be` whose
value equals the sender; a missing row or a different owner yields
`OwnerVerifyFailed`. Read-only. -/
def verify_docs_ownership (s : DBStoreV2State) (sender : Addr) (db_addr : Addr) :
    List Int → Except DB3Error Unit
  | [] => .ok ()
  | id :: rest =>
    match alookup s.doc_owners (db_addr, id) with
    | some owner =>
      if owner ≠ sender then
        .error (.OwnerVerifyFailed "doc owner is not the sender")
      else
        verify_docs_ownership s sender db_addr rest
    | none => .error (.OwnerVerifyFailed "doc id is not found")

/-- `DBStoreV2::create_doc_ownership`: one write batch putting
`db_address ∥ doc_id_be → sender` for every id. -/
def create_doc_ownership (s : DBStoreV2State) (sender : Addr) (db_addr : Addr)
    (doc_ids : List Int) : DBStoreV2State :=
  { s with
    doc_owners := doc_ids.foldl (fun acc i => aput acc (db_addr, i) sender) s.doc_owners }

/-- `DBStoreV2::delete_doc_ids_from_owner_store`: one write batch
deleting the ownership row of every id. -/
def delete_doc_ids_from_owner_store (s : DBStoreV2State) (db_addr : Addr)
    (doc_ids : List Int) : DBStoreV2State :=
  { s with
    doc_owners := doc_ids.foldl (fun acc i => adel acc (db_addr, i)) s.doc_owners }

/-- `DBStoreV2::update_docs`: collection existence first
(`CollectionNotFound` otherwise), then ownership verification, then —
only when the doc store is enabled — delegate to `patch_docs`. -/
def update_docs (s : DBStoreV2State) (db_addr : Addr) (sender : Addr)
    (col_name : String) (docs : List String) (doc_ids : List Int) :
    Except DB3Error Unit × DBStoreV2State :=
  if ¬ is_db_collection_exist s db_addr col_name then
    (.error (.CollectionNotFound col_name (to_hex db_addr)), s)
  else
    match verify_docs_ownership s sender db_addr doc_ids with
    | .error e => (.error e, s)
    | .ok _ =>
      if s.enable_doc_store then
        (.ok (), { s with doc_store := s.doc_store.patch_docs db_addr col_name docs doc_ids })
      else
        (.ok (), s)

/-- `DBStoreV2::delete_docs`: collection existence first
(`CollectionNotFound` otherwise), then ownership verification, then
doc-store deletion when enabled, and finally removal of the ownership
rows of all given ids. -/
def delete_docs (s : DBStoreV2State) (db_addr : Addr) (sender : Addr)
    (col_name : String) (doc_ids : List Int) :
    Except DB3Error Unit × DBStoreV2State :=
  if ¬ is_db_collection_exist s db_addr col_name then
    (.error (.CollectionNotFound col_name (to_hex db_addr)), s)
  else
    match verify_docs_ownership s sender db_addr doc_ids with
    | .error e => (.error e, s)
    | .ok _ =>
      let s1 :=
        if s.enable_doc_store then
          { s with doc_store := s.doc_store.delete_docs db_addr col_name doc_ids }
        else
          s
      (.ok (), delete_doc_ids_from_owner_store s1 db_addr doc_ids)

/-- Allocation loop of `DBStoreV2::add_docs`: one
`increase_db_doc_order` bump per document. -/
def alloc_doc_ids (db_addr : Addr) :
    DBStoreV2State → Nat → List Int × DBStoreV2State
  | s, 0 => ([], s)
  | s, n + 1 =>
    let p := increase_db_doc_order s db_addr
    let q := alloc_doc_ids db_addr p.2 n
    (p.1 :: q.1, q.2)

/-- `DBStoreV2::add_docs`: direct `get_cf` collection check (a
`ReadStoreError` when absent), allocation of one id per document,
ownership rows for the allocated ids, then the doc-store write when
enabled; returns the allocated ids. -/
def add_docs (s : DBStoreV2State) (db_addr : Addr) (sender : Addr)
    (col_name : String) (docs : List String) :
    Except DB3Error (List Int) × DBStoreV2State :=
  match alookup s.collections (db_addr, col_name) with
  | none =>
    (.error (.ReadStoreError ("collection with name " ++ col_name ++ " does not exist")), s)
  | some _ =>
    let p := alloc_doc_ids db_addr s docs.length
    let s2 := create_doc_ownership p.2 sender db_addr p.1
    if s2.enable_doc_store then
      (.ok p.1, { s2 with doc_store := s2.doc_store.add_str_docs db_addr col_name docs p.1 })
    else
      (.ok p.1, s2)

/-- Declared-tables loop of `DBStoreV2::create_event_database`:
`create_collection` per table with its enumeration index; the first
error aborts the loop but keeps the writes made so far. -/
def create_tables (sender : Addr) (db_addr : Addr) (block : Nat) (order : Nat) :
    DBStoreV2State → Nat → List CollectionMutation →
    Except DB3Error Unit × DBStoreV2State
  | s, _, [] => (.ok (), s)
  | s, idx, cm :: rest =>
    match create_collection s sender db_addr cm block order idx with
    | (.ok _, s1) => create_tables sender db_addr block order s1 (idx + 1) rest
    | (.error e, s1) => (.error e, s1)

/-- `DBStoreV2::create_event_database`: the address is
`DbId::from((sender, nonce, network_id))`; one write batch puts the
database record at that address (an existing record is overwritten)
and the db-owner row `owner ∥ block ∥ order → db_addr`; then the
declared tables are created, then the doc-store database when
enabled. -/
def create_event_database (s : DBStoreV2State) (sender : Addr)
    (mutation : EventDatabaseMutation) (nonce : Nat) (network_id : Nat)
    (block : Nat) (order : Nat) : Except DB3Error Addr × DBStoreV2State :=
  let db_addr := db_id_from sender nonce network_id
  let database : EventDatabase :=
    { address := db_addr
      sender := sender
      desc := mutation.desc
      contract_address := mutation.contract_address
      ttl := mutation.ttl
      events_json_abi := mutation.events_json_abi
      evm_node_url := mutation.evm_node_url }
  let s1 := { s with
    databases := aput s.databases db_addr (.EventDb database)
    db_owners := aput s.db_owners (sender, block, order) db_addr }
  match create_tables sender db_addr block order s1 0 mutation.tables with
  | (.error e, s2) => (.error e, s2)
  | (.ok _, s2) =>
    if s2.enable_doc_store then
      (.ok db_addr, { s2 with doc_store := s2.doc_store.create_database db_addr })
    else
      (.ok db_addr, s2)

/-- `DBStoreV2::create_doc_database`: the address is
`DbId::from((sender, nonce, network_id))`; one write batch puts the
database record at that address (an existing record is overwritten)
and the db-owner row; then the doc-store database when enabled. -/
def create_doc_database (s : DBStoreV2State) (sender : Addr)
    (mutation : DocumentDatabaseMutation) (nonce : Nat) (network_id : Nat)
    (block : Nat) (order : Nat) : Except DB3Error Addr × DBStoreV2State :=
  let db_addr := db_id_from sender nonce network_id
  let database : DocumentDatabase :=
    { address := db_addr
      sender := sender
      desc := mutation.db_desc }
  let s1 := { s with
    databases := aput s.databases db_addr (.DocDb database)
    db_owners := aput s.db_owners (sender, block, order) db_addr }
  if s1.enable_doc_store then
    (.ok db_addr, { s1 with doc_store := s1.doc_store.create_database db_addr })
  else
    (.ok db_addr, s1)

end DBStoreV2

/-- Rendering of an error into the message carried by a transport
status, standing in for the Display instance of db3_error (a crate not
under src/); no claim inspects these strings. -/
def DB3Error.message : DB3Error → String
  | .OpenStoreError p m => "fail to open store " ++ p ++ " for " ++ m
  | .ReadStoreError m => "fail to read store for " ++ m
  | .WriteStoreError m => "fail to write store for " ++ m
  | .CollectionNotFound n d => "collection " ++ n ++ " not found in db " ++ d
  | .OwnerVerifyFailed m => "fail to verify the owner for " ++ m
  | .ApplyMutationError m => "fail to apply mutation for " ++ m

/-- Modelled from the spec: the state store (C2, state_store.rs not
under src/) keeps the per-address highest used nonce. -/
structure StateStore where
  nonces : List (Addr × Nat)
  deriving Repr, DecidableEq

namespace StateStore

/-- Modelled from the spec: `get_nonce(addr)` returns the highest used
nonce, or 0. -/
def get_nonce (s : StateStore) (addr : Addr) : Nat :=
  (alookup s.nonces addr).getD 0

/-- Modelled from the spec: `incr_nonce` (nonce admission) succeeds
only if `nonce = get_nonce(addr) + 1`, atomically recording the new
value; otherwise it fails and records nothing. -/
def incr_nonce (s : StateStore) (addr : Addr) (nonce : Nat) :
    Except DB3Error StateStore :=
  if nonce = s.get_nonce addr + 1 then
    .ok { nonces := aput s.nonces addr nonce }
  else
    .error (.ApplyMutationError "bad nonce")

end StateStore

/-- Modelled from the spec: a mutation header
`(block, order, id, nonce, signer, size)` as stored by the mutation
store (real time is not modelled). -/
structure MutationHeader where
  block : Nat
  order : Nat
  id : String
  nonce : Nat
  signer : Addr
  size : Nat
  deriving Repr, DecidableEq

/-- Modelled from the spec: the mutation id is the hash of
`(payload ∥ signature)` (an injective digest); modelled as an injective
textual encoding of the pair. -/
def mutation_id (payload : Bytes) (signature : String) : String :=
  String.intercalate "," (payload.map toString) ++ "|" ++ signature

/-- Modelled from the spec: the mutation store (C3, mutation_store.rs
not under src/) keeps the body table, both header indices, the open
block counter and the per-block order counter. -/
structure MutationStore where
  bodies : List (String × (Bytes × String))
  header_by_order : List ((Nat × Nat) × MutationHeader)
  header_by_id : List (String × (Nat × Nat))
  current_block : Nat
  current_order : Nat
  deriving Repr, DecidableEq

namespace MutationStore

/-- Modelled from the spec: `generate_mutation_block_and_order` computes
`id = hash(payload ∥ sig)`, reads the current open block and atomically
allocates the next order within it; it does not yet persist the body. -/
def generate_mutation_block_and_order (s : MutationStore) (payload : Bytes)
    (signature : String) : (String × Nat × Nat) × MutationStore :=
  ((mutation_id payload signature, s.current_block, s.current_order + 1),
   { s with current_order := s.current_order + 1 })

/-- Modelled from the spec: `add_mutation` persists the body and both
header indices; idempotent in the id, as a repeated `(payload, sig)`
overwrites the same rows. -/
def add_mutation (s : MutationStore) (payload : Bytes) (signature : String)
    (signer : Addr) (nonce : Nat) (block : Nat) (order : Nat) : MutationStore :=
  let id := mutation_id payload signature
  { s with
    bodies := aput s.bodies id (payload, signature)
    header_by_order := aput s.header_by_order (block, order)
      { block := block, order := order, id := id, nonce := nonce,
        signer := signer, size := payload.length }
    header_by_id := aput s.header_by_id id (block, order) }

/-- Modelled from the spec: `increase_block_return_last_state` advances
the open block counter, returning the just-closed block's id and how
many mutations it contained, and resets the order counter. -/
def increase_block_return_last_state (s : MutationStore) :
    (Nat × Nat) × MutationStore :=
  ((s.current_block, s.current_order),
   { s with current_block := s.current_block + 1, current_order := 0 })

/-- Modelled from the spec: `get_current_block`. -/
def get_current_block (s : MutationStore) : Nat :=
  s.current_block

end MutationStore

/-- Proto `BlockEvent`. -/
structure BlockEvent where
  block_id : Nat
  mutation_count : Nat
  deriving Repr, DecidableEq

/-- Tag of `EventTypeV2::Block` (generated proto, outside src/). -/
def event_type_block : Int := 0

/-- Proto `EventMessageV2`: an event type tag plus the optional event. -/
structure EventMessage where
  etype : Int
  event : Option BlockEvent
  deriving Repr, DecidableEq

/-- One iteration of the loop body of `start_to_produce_block`
(storage_node_light_impl.rs): close the current block via
`increase_block_return_last_state` and construct and broadcast a block
event for it. The source matches on `Ok/Err` of the store call and
builds the event in the `Ok` arm with no condition on the mutation
count; the store call is total in the model, so an event is always
produced. -/
def produce_block_tick (storage : MutationStore) :
    MutationStore × Option EventMessage :=
  match storage.increase_block_return_last_state with
  | ((block_id, mutation_count), storage1) =>
    (storage1,
     some { etype := event_type_block,
            event := some { block_id := block_id, mutation_count := mutation_count } })

/-- Modelled from the spec: `DB3Address::try_from(&[u8])` (db3_crypto,
not under src/) accepts exactly 20-byte inputs. -/
def addr_try_from (b : Bytes) : Option Addr :=
  if b.length = 20 then some b else none

/-- Per-body BSON decoding loop of the document branches: the source
decodes the documents one by one and aborts at the first failure. The
decoder itself (`bytes_to_bson_document`, db3_base, outside src/ and
out of scope per the spec) is a parameter. -/
def decode_documents (bson : Bytes → Option String) :
    List Bytes → Option (List String)
  | [] => some []
  | b :: rest =>
    match bson b with
    | none => none
    | some d => (decode_documents bson rest).map (fun l => d :: l)

namespace StorageNode

/-- Body loop of the `CreateEventDb` arm of `send_mutation`
(storage_node_light_impl.rs): skip non-matching bodies; on the first
`EventDatabaseMutation` body, create the database, push the single
`db_addr` extra item and break; a creation error becomes
`Status::internal`. -/
def create_event_db_bodies (address : Addr) (nonce : Nat) (network : Nat)
    (block : Nat) (order : Nat) :
    DBStoreV2State → List BodyWrapper →
    Except Status (List ExtraItem) × DBStoreV2State
  | dbs, [] => (.ok [], dbs)
  | dbs, b :: rest =>
    match b.body with
    | some (.EventDatabaseMutation m) =>
      match DBStoreV2.create_event_database dbs address m nonce network block order with
      | (.ok db_id, dbs1) =>
        (.ok [{ key := "db_addr", value := to_hex db_id }], dbs1)
      | (.error e, dbs1) => (.error (.internal e.message), dbs1)
    | _ => create_event_db_bodies address nonce network block order dbs rest

/-- Body loop of the `CreateDocumentDb` arm of `send_mutation`: skip
non-matching bodies; on the first `DocDatabaseMutation` body, create
the database, push the single `db_addr` extra item and break. -/
def create_doc_db_bodies (address : Addr) (nonce : Nat) (network : Nat)
    (block : Nat) (order : Nat) :
    DBStoreV2State → List BodyWrapper →
    Except Status (List ExtraItem) × DBStoreV2State
  | dbs, [] => (.ok [], dbs)
  | dbs, b :: rest =>
    match b.body with
    | some (.DocDatabaseMutation m) =>
      match DBStoreV2.create_doc_database dbs address m nonce network block order with
      | (.ok db_id, dbs1) =>
        (.ok [{ key := "db_addr", value := to_hex db_id }], dbs1)
      | (.error e, dbs1) => (.error (.internal e.message), dbs1)
    | _ => create_doc_db_bodies address nonce network block order dbs rest

/-- Body loop of the `AddCollection` arm of `send_mutation`: enumerate
all bodies (the index advances on every body), parse the target
database address, create each collection and collect one `collection`
extra item per matching body. -/
def add_collection_bodies (address : Addr) (block : Nat) (order : Nat) :
    DBStoreV2State → Nat → List BodyWrapper →
    Except Status (List ExtraItem) × DBStoreV2State
  | dbs, _, [] => (.ok [], dbs)
  | dbs, i, b :: rest =>
    match addr_try_from b.db_address with
    | none => (.error (.internal "invalid database address"), dbs)
    | some db_addr =>
      match b.body with
      | some (.CollectionMutation cm) =>
        match DBStoreV2.create_collection dbs address db_addr cm block order i with
        | (.ok _, dbs1) =>
          match add_collection_bodies address block order dbs1 (i + 1) rest with
          | (.ok items, dbs2) =>
            (.ok ({ key := "collection", value := cm.collection_name } :: items), dbs2)
          | (.error e, dbs2) => (.error e, dbs2)
        | (.error e, dbs1) => (.error (.internal e.message), dbs1)
      | _ => add_collection_bodies address block order dbs (i + 1) rest

/-- Body loop of the `AddDocument` arm of `send_mutation`: parse the
target address, decode every document, add them via `add_docs` and
collect one `document` extra item per allocated id. -/
def add_document_bodies (bson : Bytes → Option String) (address : Addr) :
    DBStoreV2State → List BodyWrapper →
    Except Status (List ExtraItem) × DBStoreV2State
  | dbs, [] => (.ok [], dbs)
  | dbs, b :: rest =>
    match addr_try_from b.db_address with
    | none => (.error (.internal "invalid database address"), dbs)
    | some db_addr =>
      match b.body with
      | some (.DocumentMutation dm) =>
        match decode_documents bson dm.documents with
        | none => (.error (.internal "bad bson document"), dbs)
        | some docs =>
          match DBStoreV2.add_docs dbs db_addr address dm.collection_name docs with
          | (.ok ids, dbs1) =>
            match add_document_bodies bson address dbs1 rest with
            | (.ok items, dbs2) =>
              (.ok (ids.map (fun id => { key := "document", value := toString id }) ++ items),
               dbs2)
            | (.error e, dbs2) => (.error e, dbs2)
          | (.error e, dbs1) => (.error (.internal e.message), dbs1)
      | _ => add_document_bodies bson address dbs rest

/-- Body loop of the `UpdateDocument` arm of `send_mutation`: parse
the target address; on a matching body, first reject a
documents/ids length mismatch with `Status::internal` — before any
document is decoded and before `update_docs` (and hence before any
ownership check) runs — then decode and delegate to `update_docs`. -/
def update_document_bodies (bson : Bytes → Option String) (address : Addr) :
    DBStoreV2State → List BodyWrapper → Except Status Unit × DBStoreV2State
  | dbs, [] => (.ok (), dbs)
  | dbs, b :: rest =>
    match addr_try_from b.db_address with
    | none => (.error (.internal "invalid database address"), dbs)
    | some db_addr =>
      match b.body with
      | some (.DocumentMutation dm) =>
        if dm.documents.length ≠ dm.ids.length then
          (.error (.internal "doc ids size not equal to documents size"), dbs)
        else
          match decode_documents bson dm.documents with
          | none => (.error (.internal "bad bson document"), dbs)
          | some docs =>
            match DBStoreV2.update_docs dbs db_addr address dm.collection_name docs dm.ids with
            | (.ok _, dbs1) => update_document_bodies bson address dbs1 rest
            | (.error e, dbs1) => (.error (.internal e.message), dbs1)
      | _ => update_document_bodies bson address dbs rest

/-- Body loop of the `DeleteDocument` arm of `send_mutation`: parse the
target address and delegate each matching body to `delete_docs`. -/
def delete_document_bodies (address : Addr) :
    DBStoreV2State → List BodyWrapper → Except Status Unit × DBStoreV2State
  | dbs, [] => (.ok (), dbs)
  | dbs, b :: rest =>
    match addr_try_from b.db_address with
    | none => (.error (.internal "invalid database address"), dbs)
    | some db_addr =>
      match b.body with
      | some (.DocumentMutation dm) =>
        match DBStoreV2.delete_docs dbs db_addr address dm.collection_name dm.ids with
        | (.ok _, dbs1) => delete_document_bodies address dbs1 rest
        | (.error e, dbs1) => (.error (.internal e.message), dbs1)
      | _ => delete_document_bodies address dbs rest

end StorageNode

/-- State of `StorageNodeV2Impl` as far as the write path is concerned:
the nonce table, the mutation store, the DB store and the atomically
loaded network id. -/
structure NodeState where
  state_store : StateStore
  storage : MutationStore
  db_store : DBStoreV2State
  network_id : Nat
  deriving Repr, DecidableEq

/-- The `send_mutation` handler after envelope verification
(storage_node_light_impl.rs, lines 577-854): convert the action code,
admit the nonce — a failed admission is answered with the domain-level
response `code=1, msg="bad nonce"` and empty id/items, block 0, order 0,
with no state touched — then allocate `(id, block, order)`, run the
per-action body dispatch, and on success persist the mutation and
answer `code=0`. A dispatch error is a transport error, returned after
nonce admission and order allocation have already taken effect. -/
def send_mutation_verified (bson : Bytes → Option String) (node : NodeState)
    (payload : Bytes) (signature : String)
    (dm : Mutation) (address : Addr) (nonce : Nat) :
    Except Status SendMutationResponse × NodeState :=
  match MutationAction.from_i32 dm.action with
  | none => (.error (.internal "fail to convert action type"), node)
  | some action =>
    match node.state_store.incr_nonce address nonce with
    | .error _ =>
      (.ok { id := "", code := 1, msg := "bad nonce", items := [], block := 0, order := 0 },
       node)
    | .ok state_store1 =>
      match node.storage.generate_mutation_block_and_order payload signature with
      | ((id, block, order), storage1) =>
        let r : Except Status (List ExtraItem) × DBStoreV2State :=
          match action with
          | .CreateEventDb =>
            StorageNode.create_event_db_bodies address nonce node.network_id block order
              node.db_store dm.bodies
          | .CreateDocumentDb =>
            StorageNode.create_doc_db_bodies address nonce node.network_id block order
              node.db_store dm.bodies
          | .AddCollection =>
            StorageNode.add_collection_bodies address block order node.db_store 0 dm.bodies
          | .AddDocument =>
            StorageNode.add_document_bodies bson address node.db_store dm.bodies
          | .UpdateDocument =>
            match StorageNode.update_document_bodies bson address node.db_store dm.bodies with
            | (.ok _, dbs1) => (.ok [], dbs1)
            | (.error e, dbs1) => (.error e, dbs1)
          | .DeleteDocument =>
            match StorageNode.delete_document_bodies address node.db_store dm.bodies with
            | (.ok _, dbs1) => (.ok [], dbs1)
            | (.error e, dbs1) => (.error e, dbs1)
        match r with
        | (.error e, dbs1) =>
          (.error e,
           { node with state_store := state_store1, storage := storage1, db_store := dbs1 })
        | (.ok items, dbs1) =>
          let storage2 := storage1.add_mutation payload signature address nonce block order
          (.ok { id := id, code := 0, msg := "ok", items := items, block := block, order := order },
           { node with state_store := state_store1, storage := storage2, db_store := dbs1 })

/-- A JSON value as far as the verifier inspects it: the envelope's
`message` fields are looked up and read either as strings or as
hex-encoded bytes. -/
inductive JsonVal where
  | jstr (s : String)
  | jnum (n : Int)
  | jother
  deriving Repr, DecidableEq

/-- The `as_str` read of a JSON value. -/
def JsonVal.as_str : JsonVal → Option String
  | .jstr s => some s
  | _ => none

/-- The typed structured-data envelope as far as the verifier inspects
it: the `message` field map (domain and type sections are only used by
the external hashing step). -/
structure TypedData where
  message : List (String × JsonVal)
  deriving Repr, DecidableEq

/-- Value of one hexadecimal digit. -/
def hex_digit (c : Char) : Option Nat :=
  if '0' ≤ c ∧ c ≤ '9' then some (c.toNat - '0'.toNat)
  else if 'a' ≤ c ∧ c ≤ 'f' then some (c.toNat - 'a'.toNat + 10)
  else if 'A' ≤ c ∧ c ≤ 'F' then some (c.toNat - 'A'.toNat + 10)
  else none

/-- Hex decoding of an even-length digit string into bytes. -/
def hex_pairs : List Char → Option Bytes
  | [] => some []
  | [_] => none
  | c1 :: c2 :: rest =>
    match hex_digit c1, hex_digit c2, hex_pairs rest with
    | some h, some l, some bs => some ((h * 16 + l) :: bs)
    | _, _, _ => none

/-- Deserialization of a JSON value into `ethers::Bytes`
(`serde_json::from_value`): a `0x`-prefixed hex string. -/
def json_as_eth_bytes (v : JsonVal) : Option Bytes :=
  match v with
  | .jstr s =>
    match s.data with
    | '0' :: 'x' :: rest => hex_pairs rest
    | _ => none
  | _ => none

/-- Accumulator pass over decimal digits. -/
def digits_to_nat : Nat → List Char → Option Nat
  | acc, [] => some acc
  | acc, c :: rest =>
    if '0' ≤ c ∧ c ≤ '9' then
      digits_to_nat (acc * 10 + (c.toNat - '0'.toNat)) rest
    else
      none

/-- The `u64::from_str` parse of the decimal nonce string: nonempty
decimal digits fitting in 64 bits (the sign-prefix niceties of the
Rust parser are not modelled; no claim depends on them). -/
def parse_u64 (s : String) : Option Nat :=
  match s.data with
  | [] => none
  | l =>
    match digits_to_nat 0 l with
    | some n => if n < 2 ^ 64 then some n else none
    | none => none

/-- Modelled from the spec: outcomes of the external collaborators the
verifier calls — serde_json parsing of the envelope bytes,
`Signature::from_str` parsing of the 65-byte recoverable signature,
EIP-712 recovery over secp256k1 (`recover_typed_data`), and prost
decoding of the inner mutation. The verifier's own control flow
(mutation_utils.rs, under src/) is `unwrap_and_light_verify` below,
written over these outcomes. -/
structure VerifyEnv where
  parse_typed_data : Bytes → Option TypedData
  parse_signature : String → Option Bytes
  recover_typed_data : Bytes → TypedData → Option Addr
  decode_mutation : Bytes → Option Mutation

/-- `MutationUtil::unwrap_and_light_verify` (mutation_utils.rs): parse
the envelope, parse the signature, require the `payload` and `nonce`
message fields, recover the signer, decode the hex payload bytes,
decode the inner mutation, and parse the decimal nonce; each failure
returns `DB3Error::ApplyMutationError` with the respective message. -/
def unwrap_and_light_verify (env : VerifyEnv) (payload : Bytes) (sig : String) :
    Except DB3Error (Mutation × Addr × Nat) :=
  match env.parse_typed_data payload with
  | none => .error (.ApplyMutationError "bad typed data for err")
  | some data =>
    match env.parse_signature sig with
    | none => .error (.ApplyMutationError "invalid signature for err")
    | some signature =>
      match alookup data.message "payload", alookup data.message "nonce" with
      | some p, some n =>
        match env.recover_typed_data signature data with
        | none => .error (.ApplyMutationError "invalid typed data for err")
        | some address =>
          match json_as_eth_bytes p with
          | none => .error (.ApplyMutationError "invalid payload for err")
          | some bytes =>
            match env.decode_mutation bytes with
            | none => .error (.ApplyMutationError "invalid mutation for err")
            | some dm =>
              match n.as_str with
              | none => .error (.ApplyMutationError "invalid nonce")
              | some ns =>
                match parse_u64 ns with
                | none => .error (.ApplyMutationError "fail to convert payload type to i32")
                | some nonce => .ok (dm, address, nonce)
      | _, _ => .error (.ApplyMutationError "bad typed data")

/-! Helper lemmas about the store primitives. -/

theorem alookup_adel_of_none {K V : Type} [DecidableEq K] (l : List (K × V))
    (k key : K) (h : alookup l key = none) : alookup (adel l k) key = none := by
  by_cases hk : key = k
  · subst hk
    exact alookup_adel_self l key
  · rw [alookup_adel_ne l k key hk]
    exact h

theorem alookup_aput_of_some_const {K V : Type} [DecidableEq K] (l : List (K × V))
    (k key : K) (v : V) (h : alookup l key = some v) :
    alookup (aput l k v) key = some v := by
  by_cases hk : key = k
  · subst hk
    exact alookup_aput_self l key v
  · rw [alookup_aput_ne l k key v hk]
    exact h

theorem mem_aput_self {K V : Type} [DecidableEq K] (l : List (K × V)) (k : K) (v : V) :
    (k, v) ∈ aput l k v := by
  induction l with
  | nil => simp [aput]
  | cons hd tl ih =>
    obtain ⟨k0, v0⟩ := hd
    by_cases h : k0 = k <;> simp [aput, h, ih]

theorem alookup_foldl_adel_of_none (ids : List Int)
    (acc : List ((Addr × Int) × Addr)) (db : Addr) (key : Addr × Int)
    (h : alookup acc key = none) :
    alookup (ids.foldl (fun a i => adel a (db, i)) acc) key = none := by
  induction ids generalizing acc with
  | nil => exact h
  | cons i rest ih => exact ih _ (alookup_adel_of_none _ _ _ h)

theorem alookup_foldl_adel_mem (ids : List Int)
    (acc : List ((Addr × Int) × Addr)) (db : Addr) (id : Int) (h : id ∈ ids) :
    alookup (ids.foldl (fun a i => adel a (db, i)) acc) (db, id) = none := by
  induction ids generalizing acc with
  | nil => cases h
  | cons i rest ih =>
    by_cases hir : id ∈ rest
    · exact ih _ hir
    · have hii : id = i := by
        rcases List.mem_cons.mp h with h1 | h2
        · exact h1
        · exact absurd h2 hir
      subst hii
      exact alookup_foldl_adel_of_none rest _ db (db, id) (alookup_adel_self acc (db, id))

theorem alookup_foldl_aput_of_some (ids : List Int)
    (acc : List ((Addr × Int) × Addr)) (db sender : Addr) (key : Addr × Int)
    (h : alookup acc key = some sender) :
    alookup (ids.foldl (fun a i => aput a (db, i) sender) acc) key = some sender := by
  induction ids generalizing acc with
  | nil => exact h
  | cons i rest ih => exact ih _ (alookup_aput_of_some_const _ _ _ _ h)

theorem alookup_foldl_aput_mem (ids : List Int)
    (acc : List ((Addr × Int) × Addr)) (db sender : Addr) (id : Int) (h : id ∈ ids) :
    alookup (ids.foldl (fun a i => aput a (db, i) sender) acc) (db, id) = some sender := by
  induction ids generalizing acc with
  | nil => cases h
  | cons i rest ih =>
    by_cases hir : id ∈ rest
    · exact ih _ hir
    · have hii : id = i := by
        rcases List.mem_cons.mp h with h1 | h2
        · exact h1
        · exact absurd h2 hir
      subst hii
      exact alookup_foldl_aput_of_some rest _ db sender (db, id)
        (alookup_aput_self acc (db, id) sender)

/-! Helper lemmas about DB-store operations. -/

/-- The `n` consecutive integers following `c`. -/
def consecutive_from (c : Int) : Nat → List Int
  | 0 => []
  | n + 1 => (c + 1) :: consecutive_from (c + 1) n

theorem consecutive_from_length (c : Int) (n : Nat) :
    (consecutive_from c n).length = n := by
  induction n generalizing c with
  | zero => rfl
  | succ n ih => simp [consecutive_from, ih]

theorem consecutive_from_chain (c : Int) (n : Nat) :
    List.Chain' (fun a b => b = a + 1) (consecutive_from c n) := by
  induction n generalizing c with
  | zero => simp [consecutive_from]
  | succ n ih =>
    cases n with
    | zero => simp [consecutive_from]
    | succ m =>
      refine List.Chain'.cons ?_ (ih (c + 1))
      rfl

theorem consecutive_from_mem_gt (c : Int) (n : Nat) :
    ∀ x ∈ consecutive_from c n, c < x := by
  induction n generalizing c with
  | zero => simp [consecutive_from]
  | succ n ih =>
    intro x hx
    rcases List.mem_cons.mp hx with h1 | h2
    · omega
    · have := ih (c + 1) x h2
      omega

theorem consecutive_from_pairwise (c : Int) (n : Nat) :
    List.Pairwise (fun a b => a < b) (consecutive_from c n) := by
  induction n generalizing c with
  | zero => simp [consecutive_from]
  | succ n ih =>
    refine List.Pairwise.cons ?_ (ih (c + 1))
    intro x hx
    have := consecutive_from_mem_gt (c + 1) n x hx
    omega

theorem consecutive_from_head (c : Int) (n : Nat) (h : 0 < n) :
    (consecutive_from c n).head? = some (c + 1) := by
  cases n with
  | zero => omega
  | succ m => rfl

theorem increase_db_doc_order_fst (s : DBStoreV2State) (db : Addr) :
    (DBStoreV2.increase_db_doc_order s db).1 =
      (alookup s.db_doc_order db).getD 0 + 1 := by
  unfold DBStoreV2.increase_db_doc_order
  cases h : alookup s.db_doc_order db <;> simp [h]

theorem increase_db_doc_order_counter (s : DBStoreV2State) (db : Addr) :
    alookup (DBStoreV2.increase_db_doc_order s db).2.db_doc_order db =
      some ((alookup s.db_doc_order db).getD 0 + 1) := by
  unfold DBStoreV2.increase_db_doc_order
  cases h : alookup s.db_doc_order db <;> simp [h, alookup_aput_self]

theorem increase_db_doc_order_preserve (s : DBStoreV2State) (db : Addr) :
    (DBStoreV2.increase_db_doc_order s db).2.databases = s.databases ∧
    (DBStoreV2.increase_db_doc_order s db).2.collections = s.collections ∧
    (DBStoreV2.increase_db_doc_order s db).2.doc_owners = s.doc_owners ∧
    (DBStoreV2.increase_db_doc_order s db).2.db_owners = s.db_owners ∧
    (DBStoreV2.increase_db_doc_order s db).2.doc_store = s.doc_store ∧
    (DBStoreV2.increase_db_doc_order s db).2.enable_doc_store = s.enable_doc_store := by
  unfold DBStoreV2.increase_db_doc_order
  cases h : alookup s.db_doc_order db <;> simp [h]

theorem alloc_doc_ids_fst (db : Addr) (s : DBStoreV2State) (n : Nat) :
    (DBStoreV2.alloc_doc_ids db s n).1 =
      consecutive_from ((alookup s.db_doc_order db).getD 0) n := by
  induction n generalizing s with
  | zero => rfl
  | succ n ih =>
    have hstep : (DBStoreV2.alloc_doc_ids db s (n + 1)).1 =
        (DBStoreV2.increase_db_doc_order s db).1 ::
          (DBStoreV2.alloc_doc_ids db (DBStoreV2.increase_db_doc_order s db).2 n).1 := rfl
    rw [hstep, increase_db_doc_order_fst, ih, increase_db_doc_order_counter]
    simp [consecutive_from]

theorem alloc_doc_ids_counter (db : Addr) (s : DBStoreV2State) (n : Nat) :
    (alookup (DBStoreV2.alloc_doc_ids db s n).2.db_doc_order db).getD 0 =
      (alookup s.db_doc_order db).getD 0 + n := by
  induction n generalizing s with
  | zero => simp [DBStoreV2.alloc_doc_ids]
  | succ n ih =>
    have hstep : (DBStoreV2.alloc_doc_ids db s (n + 1)).2 =
        (DBStoreV2.alloc_doc_ids db (DBStoreV2.increase_db_doc_order s db).2 n).2 := rfl
    rw [hstep, ih, increase_db_doc_order_counter]
    simp only [Option.getD_some]
    push_cast
    ring

theorem alloc_doc_ids_preserve (db : Addr) (s : DBStoreV2State) (n : Nat) :
    (DBStoreV2.alloc_doc_ids db s n).2.databases = s.databases ∧
    (DBStoreV2.alloc_doc_ids db s n).2.collections = s.collections ∧
    (DBStoreV2.alloc_doc_ids db s n).2.doc_owners = s.doc_owners ∧
    (DBStoreV2.alloc_doc_ids db s n).2.db_owners = s.db_owners ∧
    (DBStoreV2.alloc_doc_ids db s n).2.doc_store = s.doc_store ∧
    (DBStoreV2.alloc_doc_ids db s n).2.enable_doc_store = s.enable_doc_store := by
  induction n generalizing s with
  | zero => exact ⟨rfl, rfl, rfl, rfl, rfl, rfl⟩
  | succ n ih =>
    have hstep : (DBStoreV2.alloc_doc_ids db s (n + 1)).2 =
        (DBStoreV2.alloc_doc_ids db (DBStoreV2.increase_db_doc_order s db).2 n).2 := rfl
    rw [hstep]
    have hp := increase_db_doc_order_preserve s db
    have h2 := ih (DBStoreV2.increase_db_doc_order s db).2
    exact ⟨h2.1.trans hp.1, h2.2.1.trans hp.2.1, h2.2.2.1.trans hp.2.2.1,
      h2.2.2.2.1.trans hp.2.2.2.1, h2.2.2.2.2.1.trans hp.2.2.2.2.1,
      h2.2.2.2.2.2.trans hp.2.2.2.2.2⟩

theorem verify_docs_ownership_ok (s : DBStoreV2State) (sender db : Addr)
    (ids : List Int) (h : ∀ id ∈ ids, alookup s.doc_owners (db, id) = some sender) :
    DBStoreV2.verify_docs_ownership s sender db ids = .ok () := by
  induction ids with
  | nil => rfl
  | cons i rest ih =>
    have hi := h i (List.mem_cons_self i rest)
    unfold DBStoreV2.verify_docs_ownership
    rw [hi]
    simp [ih (fun id hid => h id (List.mem_cons_of_mem i hid))]

theorem verify_docs_ownership_bad (s : DBStoreV2State) (sender db : Addr)
    (ids : List Int)
    (h : ¬ ∀ id ∈ ids, alookup s.doc_owners (db, id) = some sender) :
    ∃ m, DBStoreV2.verify_docs_ownership s sender db ids =
      .error (.OwnerVerifyFailed m) := by
  induction ids with
  | nil => exact absurd (by simp) h
  | cons i rest ih =>
    unfold DBStoreV2.verify_docs_ownership
    cases hl : alookup s.doc_owners (db, i) with
    | none => exact ⟨"doc id is not found", rfl⟩
    | some owner =>
      by_cases ho : owner = sender
      · subst ho
        simp only [ne_eq, not_true_eq_false, if_false, ite_self]
        have : ¬ ∀ id ∈ rest, alookup s.doc_owners (db, id) = some owner := by
          intro hall
          apply h
          intro id hid
          rcases List.mem_cons.mp hid with h1 | h2
          · subst h1
            exact hl
          · exact hall id h2
        simpa using ih this
      · exact ⟨"doc owner is not the sender", by simp [ho]⟩

theorem create_collection_preserve (s : DBStoreV2State) (sender db_addr : Addr)
    (cm : CollectionMutation) (block order idx : Nat) :
    (DBStoreV2.create_collection s sender db_addr cm block order idx).2.databases
        = s.databases ∧
    (DBStoreV2.create_collection s sender db_addr cm block order idx).2.db_owners
        = s.db_owners ∧
    (DBStoreV2.create_collection s sender db_addr cm block order idx).2.doc_owners
        = s.doc_owners ∧
    (DBStoreV2.create_collection s sender db_addr cm block order idx).2.db_doc_order
        = s.db_doc_order ∧
    (DBStoreV2.create_collection s sender db_addr cm block order idx).2.enable_doc_store
        = s.enable_doc_store := by
  unfold DBStoreV2.create_collection
  cases hdb : DBStoreV2.get_database s db_addr with
  | none => exact ⟨rfl, rfl, rfl, rfl, rfl⟩
  | some d =>
    by_cases hex : DBStoreV2.is_db_collection_exist s db_addr cm.collection_name
    · simp [hex]
    · simp only [hex, Bool.false_eq_true, if_false]
      cases hl : alookup s.collections (db_addr, cm.collection_name) with
      | some c => exact ⟨rfl, rfl, rfl, rfl, rfl⟩
      | none =>
        by_cases he : s.enable_doc_store <;> simp [he]

theorem create_tables_preserve (sender db_addr : Addr) (block order : Nat)
    (tables : List CollectionMutation) (s : DBStoreV2State) (idx : Nat) :
    (DBStoreV2.create_tables sender db_addr block order s idx tables).2.databases
        = s.databases ∧
    (DBStoreV2.create_tables sender db_addr block order s idx tables).2.db_owners
        = s.db_owners := by
  induction tables generalizing s idx with
  | nil => exact ⟨rfl, rfl⟩
  | cons cm rest ih =>
    rw [DBStoreV2.create_tables]
    cases hc : DBStoreV2.create_collection s sender db_addr cm block order idx with
    | mk r s1 =>
      have hp := create_collection_preserve s sender db_addr cm block order idx
      rw [hc] at hp
      cases r with
      | ok u =>
        dsimp only
        have h2 := ih s1 (idx + 1)
        exact ⟨h2.1.trans hp.1, h2.2.trans hp.2.1⟩
      | error e =>
        dsimp only
        exact ⟨hp.1, hp.2.1⟩

theorem unwrap_and_light_verify_error_shape (env : VerifyEnv) (payload : Bytes)
    (sig : String) (e : DB3Error)
    (h : unwrap_and_light_verify env payload sig = .error e) :
    ∃ m, e = .ApplyMutationError m := by
  unfold unwrap_and_light_verify at h
  repeat' split at h
  all_goals cases h
  all_goals exact ⟨_, rfl⟩

/-- The UpdateDocument body loop rejects at the first document body
whose documents/ids lengths disagree, before decoding, before
`update_docs` and hence before any ownership lookup, and returns the
store unchanged when every earlier body was skipped (non-document
bodies with parsable addresses). -/
theorem update_document_bodies_first_mismatch (bson : Bytes → Option String)
    (address : Addr) (dbs : DBStoreV2State) (rest : List BodyWrapper)
    (b : BodyWrapper) (dmu : DocumentMutation) (pre : List BodyWrapper)
    (hpre : ∀ x ∈ pre, (addr_try_from x.db_address).isSome = true ∧
        ∀ d : DocumentMutation, x.body ≠ some (.DocumentMutation d))
    (hb : (addr_try_from b.db_address).isSome = true)
    (hbody : b.body = some (.DocumentMutation dmu))
    (hmis : dmu.documents.length ≠ dmu.ids.length) :
    StorageNode.update_document_bodies bson address dbs (pre ++ b :: rest) =
      (.error (.internal "doc ids size not equal to documents size"), dbs) := by
  induction pre with
  | nil =>
    rw [List.nil_append, StorageNode.update_document_bodies]
    obtain ⟨a, ha⟩ := Option.isSome_iff_exists.mp hb
    rw [ha, hbody]
    dsimp only
    rw [if_pos hmis]
  | cons x pre ih =>
    rw [List.cons_append, StorageNode.update_document_bodies]
    have hx := hpre x (List.mem_cons_self x pre)
    obtain ⟨a, ha⟩ := Option.isSome_iff_exists.mp hx.1
    rw [ha]
    dsimp only
    have ihp := ih (fun y hy => hpre y (List.mem_cons_of_mem x hy))
    cases hxb : x.body with
    | none => exact ihp
    | some bd =>
      cases bd with
      | DocumentMutation d => exact absurd hxb (hx.2 d)
      | CollectionMutation c => exact ihp
      | DocDatabaseMutation d => exact ihp
      | EventDatabaseMutation e => exact ihp

/-! Concrete fixtures used by witnesses and counterexamples. -/

/-- A concrete 20-byte account address. -/
def addrA : Addr := List.replicate 20 1

/-- A second concrete 20-byte account address. -/
def addrB : Addr := List.replicate 20 2

/-- A concrete 20-byte database address. -/
def dbX : Addr := List.replicate 20 3

/-- The empty doc-store state. -/
def docs_empty : DocStoreState := { dbs := [], collections := [], docs := [] }

/-- A freshly opened, still empty DB store (doc store disabled). -/
def dbs_empty : DBStoreV2State := DBStoreV2.new false [] [] [] [] docs_empty

/-- A concrete stored collection record named `c` in `dbX`. -/
def colC : Collection :=
  { id := op_entry_id 1 1 0, name := "c", index_fields := [], sender := addrA }

/-- A DB store holding one document database `dbX` with one collection
`c` and no documents. -/
def dbs1 : DBStoreV2State :=
  { enable_doc_store := false
    databases := [(dbX, .DocDb { address := dbX, sender := addrA, desc := "x" })]
    collections := [((dbX, "c"), colC)]
    doc_owners := []
    db_owners := []
    db_doc_order := []
    doc_store := docs_empty }

/-- The same store as `dbs1` but with doc-id 1 of `dbX` already
allocated and owned by `addrA` — the picture left on disk by a run
that added one document. -/
def dbs2 : DBStoreV2State :=
  { dbs1 with
    doc_owners := [((dbX, (1 : Int)), addrA)]
    db_doc_order := [(dbX, (1 : Int))] }

/-- An empty mutation store whose open block is 5 and whose open block
holds no mutation. -/
def ms0 : MutationStore :=
  { bodies := [], header_by_order := [], header_by_id := [],
    current_block := 5, current_order := 0 }

/-- A fresh node: no nonces, empty stores. -/
def node0 : NodeState :=
  { state_store := { nonces := [] }
    storage := { bodies := [], header_by_order := [], header_by_id := [],
                 current_block := 0, current_order := 0 }
    db_store := dbs_empty
    network_id := 7 }

/-- An `UpdateDocument` mutation with a single body whose documents/ids
lengths disagree (no document, one id). -/
def dmMismatch : Mutation :=
  { action := 4
    bodies := [{ db_address := dbX,
                 body := some (.DocumentMutation
                   { collection_name := "c", documents := [], ids := [1] }) }] }

/-- Constructor tag of an error — two errors with the same tag are of
the same error kind. -/
def err_ctor_tag : DB3Error → Nat
  | .OpenStoreError _ _ => 0
  | .ReadStoreError _ => 1
  | .WriteStoreError _ => 2
  | .CollectionNotFound _ _ => 3
  | .OwnerVerifyFailed _ => 4
  | .ApplyMutationError _ => 5

/-- Whether an error is of the `OwnerVerifyFailed` kind. -/
def is_owner_verify_failed : DB3Error → Bool
  | .OwnerVerifyFailed _ => true
  | _ => false

/-- A well-formed envelope: payload field holding hex bytes `0x00` and
nonce field holding the decimal string `1`. -/
def td_fields : TypedData :=
  { message := [("payload", .jstr "0x00"), ("nonce", .jstr "1")] }

/-- Verifier environment in which the envelope parses but carries no
fields, and all other collaborators succeed. -/
def env_missing : VerifyEnv :=
  { parse_typed_data := fun _ => some { message := [] }
    parse_signature := fun _ => some [1]
    recover_typed_data := fun _ _ => some addrA
    decode_mutation := fun _ => some { action := 0, bodies := [] } }

/-- Verifier environment in which the envelope parses with well-formed
fields but signature recovery fails. -/
def env_recover_fail : VerifyEnv :=
  { parse_typed_data := fun _ => some td_fields
    parse_signature := fun _ => some [1]
    recover_typed_data := fun _ _ => none
    decode_mutation := fun _ => some { action := 0, bodies := [] } }

/-- A body wrapper carrying a collection mutation (no database body). -/
def bwCol : BodyWrapper :=
  { db_address := dbX,
    body := some (.CollectionMutation { collection_name := "t", index_fields := [] }) }

/-- A body wrapper carrying a document-database mutation with desc `a`. -/
def bwDocA : BodyWrapper :=
  { db_address := [], body := some (.DocDatabaseMutation { db_desc := "a" }) }

/-- A second document-database body, desc `b`. -/
def bwDocB : BodyWrapper :=
  { db_address := [], body := some (.DocDatabaseMutation { db_desc := "b" }) }

/-- A concrete event-database mutation with no declared tables. -/
def evA : EventDatabaseMutation :=
  { desc := "e", contract_address := "0xc", ttl := 9, events_json_abi := "[]",
    evm_node_url := "u", tables := [] }

/-- A body wrapper carrying the event-database mutation `evA`. -/
def bwEvA : BodyWrapper :=
  { db_address := [], body := some (.EventDatabaseMutation evA) }

/-- Verifier environment in which every collaborator succeeds. -/
def env_ok : VerifyEnv :=
  { parse_typed_data := fun _ => some td_fields
    parse_signature := fun _ => some [1]
    recover_typed_data := fun _ _ => some addrA
    decode_mutation := fun _ => some { action := 0, bodies := [] } }

/-- On success, `delete_docs` leaves the doc-owner family equal to the
original one with every given id's row deleted. -/
theorem delete_docs_ok_doc_owners (s : DBStoreV2State) (db_addr sender : Addr)
    (col_name : String) (doc_ids : List Int) (u : Unit) (s1 : DBStoreV2State)
    (hdel : DBStoreV2.delete_docs s db_addr sender col_name doc_ids = (.ok u, s1)) :
    s1.doc_owners = doc_ids.foldl (fun acc i => adel acc (db_addr, i)) s.doc_owners := by
  unfold DBStoreV2.delete_docs at hdel
  by_cases hc : DBStoreV2.is_db_collection_exist s db_addr col_name
  · simp only [hc, not_true_eq_false, if_false] at hdel
    cases hv : DBStoreV2.verify_docs_ownership s sender db_addr doc_ids with
    | error e =>
      rw [hv] at hdel
      simp at hdel
    | ok u2 =>
      rw [hv] at hdel
      have h2 := congrArg Prod.snd hdel
      dsimp only at h2
      rw [← h2]
      unfold DBStoreV2.delete_doc_ids_from_owner_store
      by_cases he : s.enable_doc_store = true <;> simp [he]
  · simp only [hc, not_false_eq_true, if_true] at hdel
    simp at hdel

/-- When the collection exists, `add_docs` returns the consecutive ids
following the current counter and records their ownership rows. -/
theorem add_docs_ok (s : DBStoreV2State) (db_addr sender : Addr) (col_name : String)
    (docs : List String) (col : Collection)
    (hcol : alookup s.collections (db_addr, col_name) = some col) :
    (DBStoreV2.add_docs s db_addr sender col_name docs).1 =
      .ok (consecutive_from ((alookup s.db_doc_order db_addr).getD 0) docs.length)
  ∧ (DBStoreV2.add_docs s db_addr sender col_name docs).2.doc_owners =
      (consecutive_from ((alookup s.db_doc_order db_addr).getD 0) docs.length).foldl
        (fun acc i => aput acc (db_addr, i) sender) s.doc_owners := by
  have hpres := alloc_doc_ids_preserve db_addr s docs.length
  have hfst := alloc_doc_ids_fst db_addr s docs.length
  unfold DBStoreV2.add_docs
  rw [hcol]
  dsimp only
  unfold DBStoreV2.create_doc_ownership
  dsimp only
  rw [hpres.2.2.2.2.2]
  by_cases he : s.enable_doc_store = true
  · rw [if_pos he]
    exact ⟨by rw [hfst], by rw [hfst, hpres.2.2.1]⟩
  · rw [if_neg he]
    exact ⟨by rw [hfst], by rw [hfst, hpres.2.2.1]⟩

/-- `create_doc_database` always succeeds, returning the deterministic
address derived from `(sender, nonce, network)`. -/
theorem create_doc_database_fst (s : DBStoreV2State) (sender : Addr)
    (dmu : DocumentDatabaseMutation) (nonce network block order : Nat) :
    (DBStoreV2.create_doc_database s sender dmu nonce network block order).1 =
      .ok (db_id_from sender nonce network) := by
  unfold DBStoreV2.create_doc_database
  dsimp only
  by_cases he : s.enable_doc_store = true <;> simp [he]

/-- After `create_doc_database`, the database family is the old one
with the record put at the derived address, and the db-owner family
has the owner-index row. -/
theorem create_doc_database_families (s : DBStoreV2State) (sender : Addr)
    (dmu : DocumentDatabaseMutation) (nonce network block order : Nat) :
    (DBStoreV2.create_doc_database s sender dmu nonce network block order).2.databases =
      aput s.databases (db_id_from sender nonce network)
        (.DocDb { address := db_id_from sender nonce network, sender := sender,
                  desc := dmu.db_desc })
  ∧ (DBStoreV2.create_doc_database s sender dmu nonce network block order).2.db_owners =
      aput s.db_owners (sender, block, order) (db_id_from sender nonce network) := by
  unfold DBStoreV2.create_doc_database
  dsimp only
  by_cases he : s.enable_doc_store = true <;> simp [he]

/-- After `create_event_database` — whether or not the declared-tables
loop errors — the database family holds the event record at the
derived address and the db-owner family holds the owner-index row;
nothing else in those two families changes. -/
theorem create_event_database_families (s : DBStoreV2State) (sender : Addr)
    (emu : EventDatabaseMutation) (nonce network block order : Nat) :
    (DBStoreV2.create_event_database s sender emu nonce network block order).2.databases =
      aput s.databases (db_id_from sender nonce network)
        (.EventDb { address := db_id_from sender nonce network, sender := sender,
                    desc := emu.desc, contract_address := emu.contract_address,
                    ttl := emu.ttl, events_json_abi := emu.events_json_abi,
                    evm_node_url := emu.evm_node_url })
  ∧ (DBStoreV2.create_event_database s sender emu nonce network block order).2.db_owners =
      aput s.db_owners (sender, block, order) (db_id_from sender nonce network) := by
  unfold DBStoreV2.create_event_database
  dsimp only
  split
  next e s2 heq =>
    have hs2 := congrArg Prod.snd heq
    dsimp only at hs2
    subst hs2
    exact ⟨(create_tables_preserve sender _ block order emu.tables _ 0).1,
      (create_tables_preserve sender _ block order emu.tables _ 0).2⟩
  next u s2 heq =>
    have hs2 := congrArg Prod.snd heq
    dsimp only at hs2
    subst hs2
    split
    next he =>
      exact ⟨(create_tables_preserve sender _ block order emu.tables _ 0).1,
        (create_tables_preserve sender _ block order emu.tables _ 0).2⟩
    next he =>
      exact ⟨(create_tables_preserve sender _ block order emu.tables _ 0).1,
        (create_tables_preserve sender _ block order emu.tables _ 0).2⟩

/-- A collection stored under `(db_addr, name)` is returned by the
prefix scan `get_collection_of_database db_addr`. -/
theorem mem_get_collection_of_database (s : DBStoreV2State) (db_addr : Addr)
    (name : String) (col : Collection)
    (h : ((db_addr, name), col) ∈ s.collections) :
    col ∈ DBStoreV2.get_collection_of_database s db_addr := by
  unfold DBStoreV2.get_collection_of_database
  apply List.mem_map.mpr
  refine ⟨((db_addr, name), col), ?_, rfl⟩
  apply List.mem_filter.mpr
  exact ⟨h, by simp⟩

/-- The CreateDocumentDb body loop of send_mutation skips bodies of
other kinds and, at the first `DocDatabaseMutation` body, creates the
database, emits the single `db_addr` item and breaks — the remaining
bodies are ignored. -/
theorem create_doc_db_bodies_first (address : Addr) (nonce network block order : Nat)
    (dbs : DBStoreV2State) (rest : List BodyWrapper) (b : BodyWrapper)
    (dmu : DocumentDatabaseMutation) (pre : List BodyWrapper)
    (hpre : ∀ x ∈ pre, ∀ d : DocumentDatabaseMutation,
        x.body ≠ some (.DocDatabaseMutation d))
    (hb : b.body = some (.DocDatabaseMutation dmu)) :
    StorageNode.create_doc_db_bodies address nonce network block order dbs
        (pre ++ b :: rest) =
      (.ok [{ key := "db_addr", value := to_hex (db_id_from address nonce network) }],
       (DBStoreV2.create_doc_database dbs address dmu nonce network block order).2) := by
  induction pre with
  | nil =>
    rw [List.nil_append, StorageNode.create_doc_db_bodies, hb]
    dsimp only
    cases hp : DBStoreV2.create_doc_database dbs address dmu nonce network block order with
    | mk r s2 =>
      have hr := create_doc_database_fst dbs address dmu nonce network block order
      rw [hp] at hr
      dsimp only at hr
      subst hr
      rfl
  | cons x pre ih =>
    rw [List.cons_append, StorageNode.create_doc_db_bodies]
    have hx := hpre x (List.mem_cons_self x pre)
    have ihp := ih (fun y hy => hpre y (List.mem_cons_of_mem x hy))
    cases hxb : x.body with
    | none => exact ihp
    | some bd =>
      cases bd with
      | DocDatabaseMutation d => exact absurd hxb (hx d)
      | CollectionMutation c => exact ihp
      | DocumentMutation d => exact ihp
      | EventDatabaseMutation e => exact ihp

/-- The CreateEventDb body loop of send_mutation skips bodies of other
kinds and, at the first `EventDatabaseMutation` body, applies exactly
that body (emitting one `db_addr` item on success) and breaks. -/
theorem create_event_db_bodies_first (address : Addr) (nonce network block order : Nat)
    (dbs : DBStoreV2State) (rest : List BodyWrapper) (b : BodyWrapper)
    (emu : EventDatabaseMutation) (pre : List BodyWrapper)
    (hpre : ∀ x ∈ pre, ∀ d : EventDatabaseMutation,
        x.body ≠ some (.EventDatabaseMutation d))
    (hb : b.body = some (.EventDatabaseMutation emu)) :
    StorageNode.create_event_db_bodies address nonce network block order dbs
        (pre ++ b :: rest) =
      (match DBStoreV2.create_event_database dbs address emu nonce network block order with
       | (.ok db_id, dbs1) =>
         ((.ok [{ key := "db_addr", value := to_hex db_id }] :
            Except Status (List ExtraItem)), dbs1)
       | (.error e, dbs1) =>
         ((.error (.internal e.message) : Except Status (List ExtraItem)), dbs1)) := by
  induction pre with
  | nil =>
    rw [List.nil_append, StorageNode.create_event_db_bodies, hb]
  | cons x pre ih =>
    rw [List.cons_append, StorageNode.create_event_db_bodies]
    have hx := hpre x (List.mem_cons_self x pre)
    have ihp := ih (fun y hy => hpre y (List.mem_cons_of_mem x hy))
    cases hxb : x.body with
    | none => exact ihp
    | some bd =>
      cases bd with
      | EventDatabaseMutation d => exact absurd hxb (hx d)
      | CollectionMutation c => exact ihp
      | DocumentMutation d => exact ihp
      | DocDatabaseMutation d => exact ihp

/-! Claim theorems. -/

/-- C1: a send_mutation request whose recovered nonce is rejected by
nonce admission (it differs from the signer's highest used nonce plus
one) is answered with the domain-level response `code=1, msg="bad
nonce"`, empty id and items, `block=0`, `order=0` — not with a
transport error — and the node state is left completely unchanged: no
mutation header or body is stored and no database, collection or
document effect is applied. -/
theorem c1_bad_nonce_domain_response (bson : Bytes → Option String)
    (node : NodeState) (payload : Bytes) (signature : String) (dm : Mutation)
    (address : Addr) (nonce : Nat) (act : MutationAction)
    (hact : MutationAction.from_i32 dm.action = some act)
    (hnonce : nonce ≠ node.state_store.get_nonce address + 1) :
    send_mutation_verified bson node payload signature dm address nonce =
      (.ok { id := "", code := 1, msg := "bad nonce", items := [], block := 0, order := 0 },
       node) := by
  unfold send_mutation_verified
  rw [hact]
  unfold StateStore.incr_nonce
  simp [hnonce]

/-- Witness for C1: a fresh node rejects nonce 5 from a signer whose
highest used nonce is 0, with the exact bad-nonce response and no
state change. -/
theorem c1_witness :
    MutationAction.from_i32 (0 : Int) = some MutationAction.CreateDocumentDb
  ∧ (5 : Nat) ≠ node0.state_store.get_nonce addrA + 1
  ∧ send_mutation_verified (fun _ => none) node0 [] "sig"
      { action := 0, bodies := [] } addrA 5 =
      (.ok { id := "", code := 1, msg := "bad nonce", items := [], block := 0, order := 0 },
       node0) :=
  ⟨by decide, by decide,
   c1_bad_nonce_domain_response (fun _ => none) node0 [] "sig"
     { action := 0, bodies := [] } addrA 5 MutationAction.CreateDocumentDb
     (by decide) (by decide)⟩

/-- C3 counterexample: the claim that the per-database document-id
counter is recovered on boot by scanning the doc-owner family — so
that an id is never reassigned even across a restart — is false. On
the concrete store `dbs2`, whose doc-owner family records id 1 of
`dbX` as owned by `addrA`, reopening the store (`DBStoreV2::new` on
the same path) leaves the counter map empty instead of recovering 1,
and the next `add_docs` by a different sender allocates id 1 again and
overwrites its ownership row. -/
theorem c3_counterexample_restart_reallocates :
    alookup dbs2.doc_owners (dbX, (1 : Int)) = some addrA
  ∧ (DBStoreV2.restart dbs2).db_doc_order = []
  ∧ (DBStoreV2.increase_db_doc_order (DBStoreV2.restart dbs2) dbX).1 = 1
  ∧ (DBStoreV2.add_docs (DBStoreV2.restart dbs2) dbX addrB "c" ["d1"]).1 = .ok [1]
  ∧ alookup (DBStoreV2.add_docs (DBStoreV2.restart dbs2) dbX addrB "c" ["d1"]).2.doc_owners
      (dbX, (1 : Int)) = some addrB :=
  ⟨rfl, rfl, rfl, rfl, rfl⟩

/-- C3 amended: the per-database document-id counter lives only in
memory — `DBStoreV2::new` starts it empty and nothing scans the
doc-owner family on boot, so a restart resets it. Within one process
run, ids are never reassigned, even after a deletion (which does not
touch the counter): every allocation returns ids that are pairwise
distinct, strictly increasing and strictly greater than the current
counter value, and leaves the counter advanced past all of them. -/
theorem c3_doc_id_counter_in_memory (s : DBStoreV2State) (db : Addr) (n : Nat) :
    (DBStoreV2.restart s).db_doc_order = []
  ∧ List.Pairwise (fun a b => a < b) (DBStoreV2.alloc_doc_ids db s n).1
  ∧ (∀ x ∈ (DBStoreV2.alloc_doc_ids db s n).1, (alookup s.db_doc_order db).getD 0 < x)
  ∧ (alookup (DBStoreV2.alloc_doc_ids db s n).2.db_doc_order db).getD 0 =
      (alookup s.db_doc_order db).getD 0 + n := by
  refine ⟨rfl, ?_, ?_, alloc_doc_ids_counter db s n⟩
  · rw [alloc_doc_ids_fst]
    exact consecutive_from_pairwise _ n
  · rw [alloc_doc_ids_fst]
    exact consecutive_from_mem_gt _ n

/-- C2 counterexample: the claim that a missing or mismatched owner
record makes update_docs and delete_docs return `OwnerVerifyFailed` is
false when the named collection does not exist: on an empty store,
id 1 has no owner record, yet both calls return `CollectionNotFound`,
which is not of the `OwnerVerifyFailed` kind — the collection check
runs first. -/
theorem c2_counterexample_collection_checked_first :
    alookup dbs_empty.doc_owners (dbX, (1 : Int)) = none
  ∧ (DBStoreV2.delete_docs dbs_empty dbX addrA "c" [1]).1 =
      .error (.CollectionNotFound "c" (to_hex dbX))
  ∧ (DBStoreV2.update_docs dbs_empty dbX addrA "c" [] [1]).1 =
      .error (.CollectionNotFound "c" (to_hex dbX))
  ∧ is_owner_verify_failed (DB3Error.CollectionNotFound "c" (to_hex dbX)) = false :=
  ⟨rfl, rfl, rfl, rfl⟩

/-- C2 amended: provided the named collection exists in the database
(otherwise both calls return `CollectionNotFound` before any ownership
check), if any given document id has no owner record in the doc-owner
family or its stored owner differs from the sender, update_docs and
delete_docs return `OwnerVerifyFailed` and the store is left entirely
unchanged; and whenever delete_docs succeeds, the ownership rows of
all given ids are removed. -/
theorem c2_owner_verification (s : DBStoreV2State) (db_addr sender : Addr)
    (col_name : String) (docs : List String) (doc_ids : List Int)
    (hcol : DBStoreV2.is_db_collection_exist s db_addr col_name = true) :
    (¬ (∀ id ∈ doc_ids, alookup s.doc_owners (db_addr, id) = some sender) →
      (∃ m, DBStoreV2.update_docs s db_addr sender col_name docs doc_ids =
          (.error (.OwnerVerifyFailed m), s))
      ∧ (∃ m, DBStoreV2.delete_docs s db_addr sender col_name doc_ids =
          (.error (.OwnerVerifyFailed m), s)))
  ∧ (∀ u s1, DBStoreV2.delete_docs s db_addr sender col_name doc_ids = (.ok u, s1) →
      ∀ id ∈ doc_ids, alookup s1.doc_owners (db_addr, id) = none) := by
  constructor
  · intro hbad
    obtain ⟨m, hm⟩ := verify_docs_ownership_bad s sender db_addr doc_ids hbad
    refine ⟨⟨m, ?_⟩, ⟨m, ?_⟩⟩
    · unfold DBStoreV2.update_docs
      simp [hcol, hm]
    · unfold DBStoreV2.delete_docs
      simp [hcol, hm]
  · intro u s1 hdel id hid
    rw [delete_docs_ok_doc_owners s db_addr sender col_name doc_ids u s1 hdel]
    exact alookup_foldl_adel_mem doc_ids s.doc_owners db_addr id hid

/-- Witness for C2: on a store with collection `c` but no owner rows,
the hypothesis holds and the theorem applies to ids `[2]`. -/
theorem c2_witness :
    DBStoreV2.is_db_collection_exist dbs1 dbX "c" = true
  ∧ ((¬ (∀ id ∈ [(2 : Int)], alookup dbs1.doc_owners (dbX, id) = some addrA) →
      (∃ m, DBStoreV2.update_docs dbs1 dbX addrA "c" [] [2] =
          (.error (.OwnerVerifyFailed m), dbs1))
      ∧ (∃ m, DBStoreV2.delete_docs dbs1 dbX addrA "c" [2] =
          (.error (.OwnerVerifyFailed m), dbs1)))
    ∧ (∀ u s1, DBStoreV2.delete_docs dbs1 dbX addrA "c" [2] = (.ok u, s1) →
        ∀ id ∈ [(2 : Int)], alookup s1.doc_owners (dbX, id) = none)) :=
  ⟨by decide, c2_owner_verification dbs1 dbX addrA "c" [] [2] (by decide)⟩

/-- C4 counterexample: the claim that a create_database at an address
holding an existing record fails and leaves the record unchanged is
false. Creating a document database twice with the same
`(owner, nonce, network)` derives the same address both times; the
second write succeeds (`.ok`) and replaces the stored record (its
description changes from `a` to `b`). -/
theorem c4_counterexample_overwrite :
    (DBStoreV2.create_doc_database dbs_empty addrA { db_desc := "a" } 1 7 1 1).1 =
      .ok (db_id_from addrA 1 7)
  ∧ DBStoreV2.get_database
      (DBStoreV2.create_doc_database dbs_empty addrA { db_desc := "a" } 1 7 1 1).2
      (db_id_from addrA 1 7) =
      some (.DocDb { address := db_id_from addrA 1 7, sender := addrA, desc := "a" })
  ∧ (DBStoreV2.create_doc_database
      (DBStoreV2.create_doc_database dbs_empty addrA { db_desc := "a" } 1 7 1 1).2
      addrA { db_desc := "b" } 1 7 2 1).1 = .ok (db_id_from addrA 1 7)
  ∧ DBStoreV2.get_database
      (DBStoreV2.create_doc_database
        (DBStoreV2.create_doc_database dbs_empty addrA { db_desc := "a" } 1 7 1 1).2
        addrA { db_desc := "b" } 1 7 2 1).2
      (db_id_from addrA 1 7) =
      some (.DocDb { address := db_id_from addrA 1 7, sender := addrA, desc := "b" }) :=
  ⟨rfl, rfl, rfl, rfl⟩

/-- C4 amended: both create_database variants compute the database
address deterministically from `(owner, nonce, network)`, write the
database record at that address and the db-owner index row, and leave
every other database record unchanged; when a record already exists at
the address, the write succeeds and overwrites it (the new record is
the one stored afterwards) rather than failing. -/
theorem c4_create_database_deterministic (s : DBStoreV2State) (sender : Addr)
    (dmu : DocumentDatabaseMutation) (emu : EventDatabaseMutation)
    (nonce network block order : Nat) :
    ((DBStoreV2.create_doc_database s sender dmu nonce network block order).1 =
      .ok (db_id_from sender nonce network))
  ∧ (DBStoreV2.get_database
      (DBStoreV2.create_doc_database s sender dmu nonce network block order).2
      (db_id_from sender nonce network) =
      some (.DocDb { address := db_id_from sender nonce network, sender := sender,
                     desc := dmu.db_desc }))
  ∧ (alookup
      (DBStoreV2.create_doc_database s sender dmu nonce network block order).2.db_owners
      (sender, block, order) = some (db_id_from sender nonce network))
  ∧ (∀ a, a ≠ db_id_from sender nonce network →
      DBStoreV2.get_database
        (DBStoreV2.create_doc_database s sender dmu nonce network block order).2 a =
        DBStoreV2.get_database s a)
  ∧ (DBStoreV2.get_database
      (DBStoreV2.create_event_database s sender emu nonce network block order).2
      (db_id_from sender nonce network) =
      some (.EventDb { address := db_id_from sender nonce network, sender := sender,
                       desc := emu.desc, contract_address := emu.contract_address,
                       ttl := emu.ttl, events_json_abi := emu.events_json_abi,
                       evm_node_url := emu.evm_node_url }))
  ∧ (alookup
      (DBStoreV2.create_event_database s sender emu nonce network block order).2.db_owners
      (sender, block, order) = some (db_id_from sender nonce network))
  ∧ (∀ a, a ≠ db_id_from sender nonce network →
      DBStoreV2.get_database
        (DBStoreV2.create_event_database s sender emu nonce network block order).2 a =
        DBStoreV2.get_database s a) := by
  obtain ⟨hd1, hd2⟩ := create_doc_database_families s sender dmu nonce network block order
  obtain ⟨he1, he2⟩ := create_event_database_families s sender emu nonce network block order
  refine ⟨create_doc_database_fst s sender dmu nonce network block order, ?_, ?_, ?_, ?_, ?_, ?_⟩
  · unfold DBStoreV2.get_database
    rw [hd1]
    exact alookup_aput_self _ _ _
  · rw [hd2]
    exact alookup_aput_self _ _ _
  · intro a ha
    unfold DBStoreV2.get_database
    rw [hd1]
    exact alookup_aput_ne _ _ _ _ ha
  · unfold DBStoreV2.get_database
    rw [he1]
    exact alookup_aput_self _ _ _
  · rw [he2]
    exact alookup_aput_self _ _ _
  · intro a ha
    unfold DBStoreV2.get_database
    rw [he1]
    exact alookup_aput_ne _ _ _ _ ha

/-- C5: a successful add_docs call with N documents on an existing
collection returns exactly N allocated ids, which are pairwise
distinct, strictly increasing, consecutive (each successor is its
predecessor plus one); the first id allocated for a fresh database is
1; and after the call the stored owner of every returned id is the
sender. -/
theorem c5_add_docs_ids (s : DBStoreV2State) (db_addr sender : Addr)
    (col_name : String) (docs : List String) (col : Collection)
    (hcol : alookup s.collections (db_addr, col_name) = some col) :
    ∃ ids s1, DBStoreV2.add_docs s db_addr sender col_name docs = (.ok ids, s1)
      ∧ ids.length = docs.length
      ∧ List.Pairwise (fun a b => a < b) ids
      ∧ List.Chain' (fun a b => b = a + 1) ids
      ∧ (alookup s.db_doc_order db_addr = none → 0 < docs.length → ids.head? = some 1)
      ∧ (∀ id ∈ ids, alookup s1.doc_owners (db_addr, id) = some sender) := by
  obtain ⟨h1, h2⟩ := add_docs_ok s db_addr sender col_name docs col hcol
  refine ⟨consecutive_from ((alookup s.db_doc_order db_addr).getD 0) docs.length,
    (DBStoreV2.add_docs s db_addr sender col_name docs).2, ?_, ?_, ?_, ?_, ?_, ?_⟩
  · exact Prod.ext h1 rfl
  · exact consecutive_from_length _ _
  · exact consecutive_from_pairwise _ _
  · exact consecutive_from_chain _ _
  · intro hf hn
    rw [hf]
    simpa using consecutive_from_head 0 docs.length hn
  · intro id hid
    rw [h2]
    exact alookup_foldl_aput_mem _ _ _ _ _ hid

/-- Witness for C5: three documents on the fresh collection `c` of
`dbs1` get ids 1, 2, 3 owned by the sender. -/
theorem c5_witness :
    alookup dbs1.collections (dbX, "c") = some colC
  ∧ (∃ ids s1, DBStoreV2.add_docs dbs1 dbX addrA "c" ["d1", "d2", "d3"] = (.ok ids, s1)
      ∧ ids.length = (["d1", "d2", "d3"] : List String).length
      ∧ List.Pairwise (fun a b => a < b) ids
      ∧ List.Chain' (fun a b => b = a + 1) ids
      ∧ (alookup dbs1.db_doc_order dbX = none →
          0 < (["d1", "d2", "d3"] : List String).length → ids.head? = some 1)
      ∧ (∀ id ∈ ids, alookup s1.doc_owners (dbX, id) = some addrA)) :=
  ⟨by decide, c5_add_docs_ids dbs1 dbX addrA "c" ["d1", "d2", "d3"] colC (by decide)⟩

/-- C6 counterexample: the claim that the verifier's failure modes are
reported as distinct error kinds (`InvalidSignature`,
`MalformedEnvelope`, `BadInnerPayload`) is false — a signature-recovery
failure and a malformed envelope (missing fields) both come back as
the single error kind `ApplyMutationError` (same constructor,
different message strings). -/
theorem c6_counterexample_single_error_kind :
    unwrap_and_light_verify env_recover_fail [] "s" =
      .error (.ApplyMutationError "invalid typed data for err")
  ∧ unwrap_and_light_verify env_missing [] "s" =
      .error (.ApplyMutationError "bad typed data")
  ∧ err_ctor_tag (DB3Error.ApplyMutationError "invalid typed data for err") =
      err_ctor_tag (DB3Error.ApplyMutationError "bad typed data") :=
  ⟨rfl, rfl, rfl⟩

/-- C6 amended: when every stage succeeds — the envelope parses, the
signature parses, the `payload` and `nonce` fields are present, the
signer is recovered, the hex payload decodes, the inner bytes decode
as a mutation and the nonce string parses — the verifier returns
`(inner_mutation, signer_address, nonce)`; and every failure, whatever
its cause, is reported as the single error kind `ApplyMutationError`
(the message string, not the kind, distinguishes invalid signature,
recovery failure, malformed envelope and bad inner payload). -/
theorem c6_verifier_contract (env : VerifyEnv) (payload : Bytes) (sig : String)
    (data : TypedData) (signature : Bytes) (p n : JsonVal) (address : Addr)
    (bytes : Bytes) (dm : Mutation) (ns : String) (nonce : Nat)
    (h1 : env.parse_typed_data payload = some data)
    (h2 : env.parse_signature sig = some signature)
    (h3 : alookup data.message "payload" = some p)
    (h4 : alookup data.message "nonce" = some n)
    (h5 : env.recover_typed_data signature data = some address)
    (h6 : json_as_eth_bytes p = some bytes)
    (h7 : env.decode_mutation bytes = some dm)
    (h8 : n.as_str = some ns)
    (h9 : parse_u64 ns = some nonce) :
    unwrap_and_light_verify env payload sig = .ok (dm, address, nonce)
  ∧ (∀ env2 payload2 sig2 e,
      unwrap_and_light_verify env2 payload2 sig2 = .error e →
      ∃ m, e = .ApplyMutationError m) := by
  constructor
  · unfold unwrap_and_light_verify
    simp only [h1, h2, h3, h4, h5, h6, h7, h8, h9]
  · intro env2 payload2 sig2 e h
    exact unwrap_and_light_verify_error_shape env2 payload2 sig2 e h

/-- Witness for C6: a fully successful environment returns the decoded
mutation, the recovered address and nonce 1. -/
theorem c6_witness :
    env_ok.parse_typed_data [] = some td_fields
  ∧ env_ok.parse_signature "s" = some [1]
  ∧ alookup td_fields.message "payload" = some (.jstr "0x00")
  ∧ alookup td_fields.message "nonce" = some (.jstr "1")
  ∧ env_ok.recover_typed_data [1] td_fields = some addrA
  ∧ json_as_eth_bytes (.jstr "0x00") = some [0]
  ∧ env_ok.decode_mutation [0] = some { action := 0, bodies := [] }
  ∧ JsonVal.as_str (.jstr "1") = some "1"
  ∧ parse_u64 "1" = some 1
  ∧ (unwrap_and_light_verify env_ok [] "s" =
      .ok ({ action := 0, bodies := [] }, addrA, 1)
    ∧ (∀ env2 payload2 sig2 e,
        unwrap_and_light_verify env2 payload2 sig2 = .error e →
        ∃ m, e = .ApplyMutationError m)) :=
  ⟨rfl, rfl, rfl, rfl, rfl, rfl, rfl, rfl, rfl,
   c6_verifier_contract env_ok [] "s" td_fields [1] (.jstr "0x00") (.jstr "1") addrA [0]
     { action := 0, bodies := [] } "1" 1 rfl rfl rfl rfl rfl rfl rfl rfl rfl⟩

/-- C7: create_collection fails when the target database does not
exist; fails (leaving the store, in particular the stored collection,
unchanged) when a collection of the same name already exists in that
database; and on success stores the collection with creation id
`(block, order, idx)` so that get_collection_of_database of that
database includes it. -/
theorem c7_create_collection (s : DBStoreV2State) (sender db_addr : Addr)
    (cm : CollectionMutation) (block order idx : Nat) :
    (DBStoreV2.get_database s db_addr = none →
      DBStoreV2.create_collection s sender db_addr cm block order idx =
        (.error (.ReadStoreError "fail to find database"), s))
  ∧ (∀ d, DBStoreV2.get_database s db_addr = some d →
      DBStoreV2.is_db_collection_exist s db_addr cm.collection_name = true →
      DBStoreV2.create_collection s sender db_addr cm block order idx =
        (.error (.ReadStoreError "collection with name exist"), s))
  ∧ (∀ d, DBStoreV2.get_database s db_addr = some d →
      DBStoreV2.is_db_collection_exist s db_addr cm.collection_name = false →
      ∃ s1, DBStoreV2.create_collection s sender db_addr cm block order idx = (.ok (), s1)
        ∧ alookup s1.collections (db_addr, cm.collection_name) =
            some { id := op_entry_id block order idx, name := cm.collection_name,
                   index_fields := cm.index_fields, sender := sender }
        ∧ { id := op_entry_id block order idx, name := cm.collection_name,
            index_fields := cm.index_fields, sender := sender } ∈
              DBStoreV2.get_collection_of_database s1 db_addr) := by
  refine ⟨?_, ?_, ?_⟩
  · intro hdb
    unfold DBStoreV2.create_collection
    rw [hdb]
  · intro d hdb hex
    unfold DBStoreV2.create_collection
    rw [hdb]
    simp [hex]
  · intro d hdb hex
    have hl : alookup s.collections (db_addr, cm.collection_name) = none := by
      unfold DBStoreV2.is_db_collection_exist at hex
      cases h : alookup s.collections (db_addr, cm.collection_name) with
      | none => rfl
      | some c =>
        rw [h] at hex
        simp at hex
    unfold DBStoreV2.create_collection
    rw [hdb]
    simp only [hex, Bool.false_eq_true, if_false]
    rw [hl]
    dsimp only
    by_cases he : s.enable_doc_store = true
    · rw [if_pos he]
      exact ⟨_, rfl, alookup_aput_self _ _ _,
        mem_get_collection_of_database _ db_addr cm.collection_name _ (mem_aput_self _ _ _)⟩
    · rw [if_neg he]
      exact ⟨_, rfl, alookup_aput_self _ _ _,
        mem_get_collection_of_database _ db_addr cm.collection_name _ (mem_aput_self _ _ _)⟩

/-- Witness for C7: creating the new collection `c2` on `dbs1`
succeeds, stores it with creation id `(2, 1, 0)`, and the database
scan includes it. -/
theorem c7_witness :
    DBStoreV2.get_database dbs1 dbX =
      some (.DocDb { address := dbX, sender := addrA, desc := "x" })
  ∧ DBStoreV2.is_db_collection_exist dbs1 dbX "c2" = false
  ∧ (∃ s1, DBStoreV2.create_collection dbs1 addrA dbX
        { collection_name := "c2", index_fields := [] } 2 1 0 = (.ok (), s1)
      ∧ alookup s1.collections (dbX, "c2") =
          some { id := op_entry_id 2 1 0, name := "c2", index_fields := [], sender := addrA }
      ∧ { id := op_entry_id 2 1 0, name := "c2", index_fields := [],
          sender := addrA } ∈ DBStoreV2.get_collection_of_database s1 dbX) :=
  ⟨by decide, by decide,
   (c7_create_collection dbs1 addrA dbX { collection_name := "c2", index_fields := [] }
       2 1 0).2.2
     (.DocDb { address := dbX, sender := addrA, desc := "x" }) (by decide) (by decide)⟩

/-- C9 counterexample: the claim that a documents/ids length mismatch
in an UpdateDocument body leaves no stored state changed is false — on
a fresh node, sending such a mutation with nonce 1 returns the
mismatch error, but the signer's nonce table has already advanced from
empty to 1 (nonce admission precedes the check and is not rolled
back). -/
theorem c9_counterexample_nonce_advanced :
    (send_mutation_verified (fun _ => none) node0 [] "s" dmMismatch addrA 1).1 =
      .error (.internal "doc ids size not equal to documents size")
  ∧ (send_mutation_verified (fun _ => none) node0 [] "s" dmMismatch addrA 1).2.state_store.nonces
      = [(addrA, 1)]
  ∧ node0.state_store.nonces = [] :=
  ⟨rfl, rfl, rfl⟩

/-- C9 amended: an UpdateDocument mutation whose first document body
(bodies before it being skipped non-document bodies) has a
documents/ids length mismatch is rejected with an error before that
body's ownership check or document write — the DB store is left
completely unchanged, independently of the ownership table, and the
mutation header and body are not persisted; however, the sender's
nonce admission and the block/order allocation have already taken
effect by the time the error is returned. -/
theorem c9_update_mismatch_rejected (bson : Bytes → Option String)
    (node : NodeState) (payload : Bytes) (signature : String) (dm : Mutation)
    (address : Addr) (nonce : Nat) (pre rest : List BodyWrapper)
    (b : BodyWrapper) (dmu : DocumentMutation)
    (hact : MutationAction.from_i32 dm.action = some .UpdateDocument)
    (hnonce : nonce = node.state_store.get_nonce address + 1)
    (hbodies : dm.bodies = pre ++ b :: rest)
    (hpre : ∀ x ∈ pre, (addr_try_from x.db_address).isSome = true ∧
        ∀ d : DocumentMutation, x.body ≠ some (.DocumentMutation d))
    (hb : (addr_try_from b.db_address).isSome = true)
    (hbody : b.body = some (.DocumentMutation dmu))
    (hmis : dmu.documents.length ≠ dmu.ids.length) :
    StorageNode.update_document_bodies bson address node.db_store dm.bodies =
      (.error (.internal "doc ids size not equal to documents size"), node.db_store)
  ∧ send_mutation_verified bson node payload signature dm address nonce =
      (.error (.internal "doc ids size not equal to documents size"),
       { node with
         state_store := { nonces := aput node.state_store.nonces address nonce }
         storage := (node.storage.generate_mutation_block_and_order payload signature).2 }) := by
  have hfirst := update_document_bodies_first_mismatch bson address node.db_store rest b dmu
    pre hpre hb hbody hmis
  constructor
  · rw [hbodies]
    exact hfirst
  · unfold send_mutation_verified
    rw [hact]
    unfold StateStore.incr_nonce
    rw [if_pos hnonce]
    dsimp only
    rw [hbodies, hfirst]

/-- Witness for C9: the single-body mismatching mutation on a fresh
node satisfies every hypothesis and the theorem applies. -/
theorem c9_witness :
    MutationAction.from_i32 dmMismatch.action = some MutationAction.UpdateDocument
  ∧ (1 : Nat) = node0.state_store.get_nonce addrA + 1
  ∧ dmMismatch.bodies = [] ++
      { db_address := dbX,
        body := some (.DocumentMutation
          { collection_name := "c", documents := [], ids := [1] }) } :: []
  ∧ (addr_try_from dbX).isSome = true
  ∧ (StorageNode.update_document_bodies (fun _ => none) addrA node0.db_store
        dmMismatch.bodies =
      (.error (.internal "doc ids size not equal to documents size"), node0.db_store)
    ∧ send_mutation_verified (fun _ => none) node0 [] "s" dmMismatch addrA 1 =
      (.error (.internal "doc ids size not equal to documents size"),
       { node0 with
         state_store := { nonces := aput node0.state_store.nonces addrA 1 }
         storage := (node0.storage.generate_mutation_block_and_order [] "s").2 })) :=
  ⟨by decide, by decide, rfl, by decide,
   c9_update_mismatch_rejected (fun _ => none) node0 [] "s" dmMismatch addrA 1 [] []
     { db_address := dbX,
       body := some (.DocumentMutation
         { collection_name := "c", documents := [], ids := [1] }) }
     { collection_name := "c", documents := [], ids := [1] }
     (by decide) (by decide) rfl (by simp) (by decide) rfl (by decide)⟩

/-- C10: for a CreateDocumentDb or CreateEventDb mutation, at most one
database is created even when the mutation carries several
database-mutation bodies: the body loop skips non-matching bodies,
applies exactly the first body of the matching kind, pushes exactly
one `db_addr` extra item into the response and breaks, ignoring every
later body; and no database record other than the one at the derived
address is touched. -/
theorem c10_create_db_first_body_only (address : Addr) (nonce network block order : Nat)
    (dbs : DBStoreV2State) (pre rest preE restE : List BodyWrapper) (b bE : BodyWrapper)
    (dmu : DocumentDatabaseMutation) (emu : EventDatabaseMutation)
    (hpre : ∀ x ∈ pre, ∀ d : DocumentDatabaseMutation,
        x.body ≠ some (.DocDatabaseMutation d))
    (hb : b.body = some (.DocDatabaseMutation dmu))
    (hpreE : ∀ x ∈ preE, ∀ d : EventDatabaseMutation,
        x.body ≠ some (.EventDatabaseMutation d))
    (hbE : bE.body = some (.EventDatabaseMutation emu)) :
    (StorageNode.create_doc_db_bodies address nonce network block order dbs
        (pre ++ b :: rest) =
      (.ok [{ key := "db_addr", value := to_hex (db_id_from address nonce network) }],
       (DBStoreV2.create_doc_database dbs address dmu nonce network block order).2))
  ∧ (∀ a, a ≠ db_id_from address nonce network →
      alookup (DBStoreV2.create_doc_database dbs address dmu nonce network
          block order).2.databases a = alookup dbs.databases a)
  ∧ (StorageNode.create_event_db_bodies address nonce network block order dbs
        (preE ++ bE :: restE) =
      (match DBStoreV2.create_event_database dbs address emu nonce network block order with
       | (.ok db_id, dbs1) =>
         ((.ok [{ key := "db_addr", value := to_hex db_id }] :
            Except Status (List ExtraItem)), dbs1)
       | (.error e, dbs1) =>
         ((.error (.internal e.message) : Except Status (List ExtraItem)), dbs1)))
  ∧ (∀ a, a ≠ db_id_from address nonce network →
      alookup (DBStoreV2.create_event_database dbs address emu nonce network
          block order).2.databases a = alookup dbs.databases a) := by
  refine ⟨create_doc_db_bodies_first address nonce network block order dbs rest b dmu pre
      hpre hb, ?_,
    create_event_db_bodies_first address nonce network block order dbs restE bE emu preE
      hpreE hbE, ?_⟩
  · intro a ha
    rw [(create_doc_database_families dbs address dmu nonce network block order).1]
    exact alookup_aput_ne _ _ _ _ ha
  · intro a ha
    rw [(create_event_database_families dbs address emu nonce network block order).1]
    exact alookup_aput_ne _ _ _ _ ha

/-- Witness for C10: with a leading collection body, a first doc-db body
`a` and a trailing doc-db body `b` (and likewise one event body), the
loops create exactly one database from the first matching body and
return exactly one `db_addr` item. -/
theorem c10_witness :
    (∀ x ∈ [bwCol], ∀ d : DocumentDatabaseMutation,
        x.body ≠ some (.DocDatabaseMutation d))
  ∧ bwDocA.body = some (.DocDatabaseMutation { db_desc := "a" })
  ∧ bwEvA.body = some (.EventDatabaseMutation evA)
  ∧ ((StorageNode.create_doc_db_bodies addrA 1 7 1 1 dbs_empty
        ([bwCol] ++ bwDocA :: [bwDocB]) =
      (.ok [{ key := "db_addr", value := to_hex (db_id_from addrA 1 7) }],
       (DBStoreV2.create_doc_database dbs_empty addrA { db_desc := "a" } 1 7 1 1).2))
    ∧ (∀ a, a ≠ db_id_from addrA 1 7 →
        alookup (DBStoreV2.create_doc_database dbs_empty addrA { db_desc := "a" }
            1 7 1 1).2.databases a = alookup dbs_empty.databases a)
    ∧ (StorageNode.create_event_db_bodies addrA 1 7 1 1 dbs_empty
        ([bwCol] ++ bwEvA :: []) =
      (match DBStoreV2.create_event_database dbs_empty addrA evA 1 7 1 1 with
       | (.ok db_id, dbs1) =>
         ((.ok [{ key := "db_addr", value := to_hex db_id }] :
            Except Status (List ExtraItem)), dbs1)
       | (.error e, dbs1) =>
         ((.error (.internal e.message) : Except Status (List ExtraItem)), dbs1)))
    ∧ (∀ a, a ≠ db_id_from addrA 1 7 →
        alookup (DBStoreV2.create_event_database dbs_empty addrA evA
            1 7 1 1).2.databases a = alookup dbs_empty.databases a)) :=
  ⟨by simp [bwCol], rfl, rfl,
   c10_create_db_first_body_only addrA 1 7 1 1 dbs_empty [bwCol] [bwDocB] [bwCol] []
     bwDocA bwEvA { db_desc := "a" } evA
     (by simp [bwCol]) rfl (by simp [bwCol]) rfl⟩

/-- C8 counterexample: the claim that the block producer never
broadcasts an event for a closed block whose mutation count is 0 is
false — a tick on a store whose open block 5 holds no mutation still
constructs and hands the hub a block event with `mutation_count = 0`. -/
theorem c8_counterexample_empty_block_event :
    ms0.current_order = 0
  ∧ (produce_block_tick ms0).2 =
      some { etype := event_type_block,
             event := some { block_id := 5, mutation_count := 0 } } :=
  ⟨rfl, rfl⟩

/-- C8 amended: on every tick of the block producer, after closing the
current block, a block event `(block_id, mutation_count)` is
constructed and handed to the subscription hub unconditionally —
including when the closed block's mutation count is 0 — and the open
block counter advances with the order counter reset. -/
theorem c8_tick_always_broadcasts (storage : MutationStore) :
    (produce_block_tick storage).2 =
      some { etype := event_type_block,
             event := some { block_id := storage.current_block,
                             mutation_count := storage.current_order } }
  ∧ (produce_block_tick storage).1.current_block = storage.current_block + 1
  ∧ (produce_block_tick storage).1.current_order = 0 :=
  ⟨rfl, rfl, rfl⟩

end RtStore
